import Mathlib

/-!
Verification of the framebuffer cache / eviction engine and the atomic
commit machinery of `ExynosDisplayDrmInterface.cpp` (Exynos HWC graphics
HAL).  The C++ sources are shallowly embedded: the mutable
`FramebufferManager` becomes explicit state passing over `FBMState`,
external kernel / libdrm calls become oracle functions collected in
environment records, and machine integers become `Nat` / `Int` (the
quantities involved — framebuffer ids, sizes, error codes, nanosecond
timestamps — stay far below any relevant word size on the real device).
-/

namespace HwcModel

/-! ## Error codes and external constants

`NO_ERROR` is Android's `status_t` success value; the `E*` constants are
the standard Linux errno values used by the sources (`return -EINVAL;`
and so on). -/

def NO_ERROR : Int := 0

def EINVAL : Int := 22

def ENOMEM : Int := 12

def EPERM : Int := 1

/-- `MAX_PLANE_NUM` from `ExynosDisplayDrmInterface.cpp` (constexpr, line 43). -/
def MAX_PLANE_NUM : Nat := 3

/-- `CBCR_INDEX` from `ExynosDisplayDrmInterface.cpp` (constexpr, line 44). -/
def CBCR_INDEX : Nat := 1

/-- `DRM_FORMAT_UNDEFINED`: the sentinel drm format the code treats as invalid. -/
def DRM_FORMAT_UNDEFINED : Nat := 0

/-- `DRM_FORMAT_BGRA8888` = fourcc_code of the characters B, A, 2, 4 (drm_fourcc.h). -/
def DRM_FORMAT_BGRA8888 : Nat := 0x34324142

/-- `DRM_FORMAT_C8` = fourcc_code of C, 8, space, space (drm_fourcc.h). -/
def DRM_FORMAT_C8 : Nat := 0x20203843

/-- `DRM_MODE_FB_MODIFIERS` flag (drm_mode.h). -/
def DRM_MODE_FB_MODIFIERS : Nat := 2

/-- `HAL_PIXEL_FORMAT_BGRA_8888` (Android graphics HAL). -/
def HAL_PIXEL_FORMAT_BGRA_8888 : Nat := 5

/-! ## Data model of the framebuffer cache -/

/-- The owner key of a cache bucket: `const ExynosLayer *`.  `none` is the
null pointer ("untracked"), `some n` stands for a concrete layer address. -/
abbrev LayerPtr := Option Nat

/-- `Framebuffer::BufferDesc`: structural identity of a pixel buffer. -/
structure BufferDesc where
  bufferId : Nat
  drmFormat : Nat
  isSecure : Bool
  deriving DecidableEq, Repr

/-- `Framebuffer::SolidColorDesc`: structural identity of a solid-color buffer. -/
structure SolidColorDesc where
  width : Nat
  height : Nat
  deriving DecidableEq, Repr

/-- The identity stored in a cached `Framebuffer` (one of the two descriptors). -/
inductive FbDesc where
  | buffer : BufferDesc → FbDesc
  | color : SolidColorDesc → FbDesc
  deriving DecidableEq, Repr

/-- A cached framebuffer entry: kernel framebuffer id plus its identity. -/
structure Framebuffer where
  fbId : Nat
  desc : FbDesc
  deriving DecidableEq, Repr

abbrev FBList := List Framebuffer

/-- One bucket map `std::map<const ExynosLayer *, FBList>`, as an association
list (the map's iteration order is irrelevant to the verified properties,
membership and per-key contents are what matters). -/
abbrev BucketMap := List (LayerPtr × FBList)

/-- Reading `map[layer]` without inserting: the bucket of `l`, `[]` if absent
(a `std::map` default-constructs an empty list on first access, which is
observably the same as reading an empty bucket). -/
def lookupBucket (m : BucketMap) (l : LayerPtr) : FBList :=
  (((m.find? (fun e => e.1 == l)).map Prod.snd)).getD []

/-- Writing `map[layer] = b`. -/
def setBucket (m : BucketMap) (l : LayerPtr) (b : FBList) : BucketMap :=
  if m.any (fun e => e.1 == l) then
    m.map (fun e => if e.1 == l then (l, b) else e)
  else
    m ++ [(l, b)]

/-- Insertion into a `std::set`, modelled on duplicate-free lists. -/
def insertSet (x : LayerPtr) (s : List LayerPtr) : List LayerPtr :=
  if s.contains x then s else s ++ [x]

/-- The mutable state of `FramebufferManager` (the fields touched by the
cache, eviction and reclamation logic). -/
structure FBMState where
  cachedLayerBuffers : BucketMap
  cachedSecureLayerBuffers : BucketMap
  cleanBuffers : FBList
  cacheShrinkPending : Bool
  cacheSecureShrinkPending : Bool
  cachedLayersInuse : List LayerPtr
  cachedSecureLayersInuse : List LayerPtr
  deriving DecidableEq, Repr

/-- The bucket map selected by a protection flag
(`(!isSecureBuffer) ? mCachedLayerBuffers : mCachedSecureLayerBuffers`). -/
def bucketsOf (s : FBMState) (isSecureBuffer : Bool) : BucketMap :=
  if isSecureBuffer = false then s.cachedLayerBuffers else s.cachedSecureLayerBuffers

/-- `FramebufferManager::markInuseLayerLocked`. -/
def markInuseLayerLocked (s : FBMState) (layer : LayerPtr) (isSecureBuffer : Bool) :
    FBMState :=
  let s1 :=
    if isSecureBuffer = false ∧ s.cacheShrinkPending = true then
      { s with cachedLayersInuse := insertSet layer s.cachedLayersInuse }
    else s
  if isSecureBuffer = true ∧ s1.cacheSecureShrinkPending = true then
    { s1 with cachedSecureLayersInuse := insertSet layer s1.cachedSecureLayersInuse }
  else s1

/-- The `destroyUnusedLayers` lambda inside
`FramebufferManager::destroyUnusedLayersLocked`, acting on one cache map.
Returns the surviving map, the extended clean list and the "did evict" flag
(the in-use set is cleared by the caller in every branch). -/
def destroyUnusedLayersOne (shrinkPending : Bool) (inuse : List LayerPtr)
    (cache : BucketMap) (clean : FBList) : BucketMap × FBList × Bool :=
  if shrinkPending = false ∨ inuse.length = cache.length then
    (cache, clean, false)
  else
    let kept := cache.filter (fun e => decide (e.1 ∈ inuse))
    let evicted := cache.filter (fun e => !decide (e.1 ∈ inuse))
    (kept, clean ++ (evicted.map Prod.snd).flatten, true)

/-- `FramebufferManager::destroyUnusedLayersLocked`. -/
def destroyUnusedLayersLocked (s : FBMState) : FBMState :=
  let r1 := destroyUnusedLayersOne s.cacheShrinkPending s.cachedLayersInuse
    s.cachedLayerBuffers s.cleanBuffers
  let r2 := destroyUnusedLayersOne s.cacheSecureShrinkPending s.cachedSecureLayersInuse
    s.cachedSecureLayerBuffers r1.2.1
  { s with
    cachedLayerBuffers := r1.1
    cachedSecureLayerBuffers := r2.1
    cleanBuffers := r2.2.1
    cachedLayersInuse := []
    cachedSecureLayersInuse := [] }

/-- `FramebufferManager::destroyAllSecureBuffersLocked`: splice every secure
bucket onto the clean (reclaim) list, then clear the secure map. -/
def destroyAllSecureBuffersLocked (s : FBMState) : FBMState :=
  { s with
    cleanBuffers := s.cleanBuffers ++ (s.cachedSecureLayerBuffers.map Prod.snd).flatten
    cachedSecureLayerBuffers := [] }

/-- Result of `FramebufferManager::flip`: the new manager state together with
whether `mFlipDone.signal()` was issued. -/
structure FlipResult where
  state : FBMState
  signaled : Bool
  deriving DecidableEq, Repr

/-- `FramebufferManager::flip`. -/
def flip (s : FBMState) (hasSecureBuffer : Bool) : FlipResult :=
  let s1 := destroyUnusedLayersLocked s
  let s2 := if hasSecureBuffer = false then destroyAllSecureBuffersLocked s1 else s1
  { state := s2, signaled := decide (s2.cleanBuffers.length > 0) }

/-! ## `FramebufferManager::getBuffer` -/

/-- The `exynos_win_config_data::WIN_STATE_*` enumeration (declared in the
HWC headers; only the distinctions used by `getBuffer` matter here). -/
inductive WinState where
  | disabled
  | color
  | buffer
  | update
  | cursor
  | rcd
  deriving DecidableEq, Repr

/-- Compression type of a layer (`COMP_TYPE_*`). -/
inductive CompType where
  | uncompressed
  | afbc
  | sbwc
  | other
  deriving DecidableEq, Repr

/-- Compression source (`DPP_COMP_SRC_*`), matched by the AFBC switch. -/
inductive CompSrc where
  | g2d
  | gpu
  | other
  deriving DecidableEq, Repr

/-- The fields of `exynos_win_config_data` read by `getBuffer`.  `fd_idma` is
the per-plane dma-buf file-descriptor array, modelled as a function from the
index to the fd. -/
structure WinConfig where
  state : WinState
  protection : Bool
  format : Nat
  compressionType : CompType
  compressionModifier : Nat
  comp_src : CompSrc
  src_f_w : Nat
  src_f_h : Nat
  dst_w : Nat
  dst_h : Nat
  layer : LayerPtr
  buffer_id : Nat
  fd_idma : Nat → Int

/-- The relevant fields of the `ExynosFormat` record returned by
`halFormatToExynosFormat` (an external HWC helper). -/
structure ExynosFormatInfo where
  drmFormat : Nat
  bufferNum : Nat
  planeNum : Nat
  deriving DecidableEq, Repr

/-- The argument record of the kernel call `drmModeAddFB2WithModifiers`
(minus the device fd, which is fixed per manager). -/
structure AddFB2Req where
  width : Nat
  height : Nat
  drmFormat : Nat
  handles : Nat → Nat
  pitches : Nat → Nat
  offsets : Nat → Nat
  modifiers : Nat → Nat
  flags : Nat

/-- Oracle environment for everything `getBuffer` consumes from outside the
translation unit: format helpers, libdrm / kernel entry points and the
vendor-specific modifier constants and cache caps declared in headers that
are not part of these sources. -/
structure DrmEnv where
  halFormatToExynosFormat : Nat → CompType → Option ExynosFormatInfo
  getBytePerPixelOfPrimaryPlane : Nat → Nat
  getExynosBufferYLength : Nat → Nat → Nat → Nat
  getBufHandleFromFd : Int → Nat
  drmModeAddFB2WithModifiers : AddFB2Req → Int × Nat
  MOD_PROTECTION : Nat
  AFBC_SOURCE_G2D : Nat
  AFBC_SOURCE_GPU : Nat
  modArmAfbc : Nat → Nat
  modSamsungSbwc : Nat → Nat
  MOD_SAMSUNG_COLORMAP : Nat
  MAX_CACHED_BUFFERS_PER_LAYER : Nat
  MAX_CACHED_SECURE_BUFFERS_PER_LAYER : Nat

/-- The per-owner cache cap selected by a protection flag
(`(!isSecureBuffer) ? MAX_CACHED_BUFFERS_PER_LAYER : MAX_CACHED_SECURE_BUFFERS_PER_LAYER`). -/
def capOf (env : DrmEnv) (isSecureBuffer : Bool) : Nat :=
  if isSecureBuffer = false then env.MAX_CACHED_BUFFERS_PER_LAYER
  else env.MAX_CACHED_SECURE_BUFFERS_PER_LAYER

/-- The all-zero `DrmArray` initialiser (`= {0}`). -/
def zeroArr : Nat → Nat := fun _ => 0

/-- Single array store `a[i] = v`. -/
def upd (f : Nat → Nat) (i v : Nat) : Nat → Nat :=
  fun j => if j = i then v else f j

/-- A loop `for (j = 0; j < n; j++) a[j] = g j;` over an array. -/
def setRange (f : Nat → Nat) (n : Nat) (g : Nat → Nat) : Nat → Nat :=
  fun j => if j < n then g j else f j

/-- A loop `for (j = lo; j < hi; j++) a[j] = g j;` over an array. -/
def setRangeFrom (f : Nat → Nat) (lo hi : Nat) (g : Nat → Nat) : Nat → Nat :=
  fun j => if lo ≤ j ∧ j < hi then g j else f j

/-- The handle-resolution loop of `getBuffer`, resolving `count` dma-buf fds
starting at index `start`.  `error opened` models the `return -ENOMEM` exit,
carrying the (nonzero) GEM handles opened before the failing index;
`ok handles` carries the full list on success. -/
def resolveHandlesFrom (env : DrmEnv) (fdIdma : Nat → Int) (start : Nat) :
    Nat → Except (List Nat) (List Nat)
  | 0 => .ok []
  | count + 1 =>
    let h := env.getBufHandleFromFd (fdIdma start)
    if h = 0 then .error []
    else
      match resolveHandlesFrom env fdIdma (start + 1) count with
      | .ok hs => .ok (h :: hs)
      | .error opened => .error (h :: opened)

def resolveHandles (env : DrmEnv) (fdIdma : Nat → Int) (bufferNum : Nat) :
    Except (List Nat) (List Nat) :=
  resolveHandlesFrom env fdIdma 0 bufferNum

/-- Modelled from the spec: `FramebufferManager::findCachedFbId` is declared
in `ExynosDisplayDrmInterface.h`, which is not among these sources.  Per the
spec — "Lookup: scan the owner's bucket (secure bucket if `identity.secure`,
else non-secure) for a structural match; on hit, return the cached id
immediately", with "in-use marking happens during `getOrCreate`, restricted
to shrink-pending state" — it marks the owner in use and returns the first
structurally matching cached framebuffer id, or `0` on a miss. -/
def findCachedFbId (s : FBMState) (layer : LayerPtr) (isSecureBuffer : Bool)
    (matchFn : Framebuffer → Bool) : FBMState × Nat :=
  let s1 := markInuseLayerLocked s layer isSecureBuffer
  let bucket := lookupBucket (bucketsOf s1 isSecureBuffer) layer
  (s1, (((bucket.find? matchFn).map Framebuffer.fbId)).getD 0)

/-- `FramebufferManager::validateLayerInfo`. -/
def validateLayerInfo (stt : WinState) (drmFormat : Nat) (handles : Nat → Nat)
    (modifier : Nat → Nat) : Bool :=
  match stt with
  | .rcd =>
    decide (drmFormat = DRM_FORMAT_C8) && decide (handles 0 ≠ 0) &&
      decide (handles 1 = 0) && decide (modifier 0 = 0)
  | _ => true

/-- `FramebufferManager::addFB2WithModifiers`: validate, then issue the
kernel call.  Returns the status and the framebuffer id out-parameter
(left at its prior value `0` when the call fails). -/
def addFB2WithModifiers (env : DrmEnv) (stt : WinState) (width height drmFormat : Nat)
    (handles pitches offsets modifiersArr : Nat → Nat) (flags : Nat) : Int × Nat :=
  if validateLayerInfo stt drmFormat handles modifiersArr = false then (-EINVAL, 0)
  else
    let r := env.drmModeAddFB2WithModifiers
      { width := width, height := height, drmFormat := drmFormat, handles := handles,
        pitches := pitches, offsets := offsets, modifiers := modifiersArr, flags := flags }
    if r.1 = 0 then (r.1, r.2) else (r.1, 0)

/-- The descriptor stored by the cache-insertion block of `getBuffer`:
a solid-color descriptor for `WIN_STATE_COLOR`, a buffer descriptor
otherwise. -/
def descOf (cfg : WinConfig) (bufWidth bufHeight drmFormat : Nat) : FbDesc :=
  if cfg.state = WinState.color then
    FbDesc.color { width := bufWidth, height := bufHeight }
  else
    FbDesc.buffer { bufferId := cfg.buffer_id, drmFormat := drmFormat,
                    isSecure := cfg.protection }

/-- The cache-insertion block at the end of `getBuffer` (the
`if (config.layer || config.buffer_id)` block): mark the owner in use,
splice the whole bucket to the clean list when it is over its cap, then
insert the new entry at the front.  An untracked buffer (null layer and
zero buffer id) only logs a leak warning and caches nothing. -/
def cacheSuccessfulFb (env : DrmEnv) (s : FBMState) (cfg : WinConfig)
    (isSecureBuffer : Bool) (bufWidth bufHeight drmFormat fbId : Nat) : FBMState :=
  if cfg.layer.isSome = true ∨ cfg.buffer_id ≠ 0 then
    let s1 := markInuseLayerLocked s cfg.layer isSecureBuffer
    let bucket := lookupBucket (bucketsOf s1 isSecureBuffer) cfg.layer
    let cap := capOf env isSecureBuffer
    let clean2 := if bucket.length > cap then s1.cleanBuffers ++ bucket else s1.cleanBuffers
    let bucket2 : FBList := if bucket.length > cap then [] else bucket
    let newBucket : FBList :=
      { fbId := fbId, desc := descOf cfg bufWidth bufHeight drmFormat } :: bucket2
    if isSecureBuffer = false then
      { s1 with cleanBuffers := clean2,
                cachedLayerBuffers := setBucket s1.cachedLayerBuffers cfg.layer newBucket }
    else
      { s1 with cleanBuffers := clean2,
                cachedSecureLayerBuffers :=
                  setBucket s1.cachedSecureLayerBuffers cfg.layer newBucket }
  else s

/-- Outcome of one `getBuffer` call.  Besides the returned status, id and
manager state it records the number of `addFB2WithModifiers` invocations,
the nonzero GEM handles opened by `getBufHandleFromFd` and the nonzero
handles passed to `freeBufHandle` (i.e. closed) during the call. -/
structure GetBufferResult where
  ret : Int
  fbId : Nat
  state : FBMState
  addFBCalls : Nat
  openedHandles : List Nat
  freedHandles : List Nat
  deriving DecidableEq, Repr

/-- An early `return err;` before any handle was opened or created. -/
def errResult (s : FBMState) (e : Int) : GetBufferResult :=
  { ret := e, fbId := 0, state := s, addFBCalls := 0, openedHandles := [], freedHandles := [] }

/-- The tail of `getBuffer` shared by the buffer and color branches: the
`addFB2WithModifiers` call, the `freeBufHandle` loop over the first
`bufferNum` handles, and on success the cache insertion. -/
def getBufferFinish (env : DrmEnv) (s : FBMState) (cfg : WinConfig)
    (isSecureBuffer : Bool) (bufWidth bufHeight drmFormat bufferNum : Nat)
    (handles pitches offsets modifiersArr : Nat → Nat)
    (opened : List Nat) : GetBufferResult :=
  let flags := if modifiersArr 0 ≠ 0 then DRM_MODE_FB_MODIFIERS else 0
  let r := addFB2WithModifiers env cfg.state bufWidth bufHeight drmFormat
    handles pitches offsets modifiersArr flags
  let freed := ((List.range bufferNum).map handles).filter (fun h => h ≠ 0)
  if r.1 ≠ 0 then
    { ret := r.1, fbId := 0, state := s, addFBCalls := 1,
      openedHandles := opened, freedHandles := freed }
  else
    { ret := 0, fbId := r.2,
      state := cacheSuccessfulFb env s cfg isSecureBuffer bufWidth bufHeight drmFormat r.2,
      addFBCalls := 1, openedHandles := opened, freedHandles := freed }

/-- The `WIN_STATE_BUFFER` / `WIN_STATE_RCD` branch of `getBuffer`. -/
def getBufferBufferOrRcd (env : DrmEnv) (s : FBMState) (cfg : WinConfig)
    (mod0base : Nat) : GetBufferResult :=
  let isSecureBuffer := cfg.protection
  let bufWidth := cfg.src_f_w
  let bufHeight := cfg.src_f_h
  match env.halFormatToExynosFormat cfg.format cfg.compressionType with
  | none => errResult s (-EINVAL)
  | some ef =>
    if ef.drmFormat = DRM_FORMAT_UNDEFINED then errResult s (-EINVAL)
    else
      let drmFormat := ef.drmFormat
      let bpp := env.getBytePerPixelOfPrimaryPlane cfg.format
      if ef.bufferNum = 0 then errResult s (-EINVAL)
      else if ef.planeNum = 0 ∨ ef.planeNum > MAX_PLANE_NUM then errResult s (-EINVAL)
      else
        let bufferNum := ef.bufferNum
        let planeNum := ef.planeNum
        let fc := findCachedFbId s cfg.layer isSecureBuffer
          (fun fb => fb.desc ==
            FbDesc.buffer { bufferId := cfg.buffer_id, drmFormat := drmFormat,
                            isSecure := cfg.protection })
        if fc.2 ≠ 0 then
          { ret := NO_ERROR, fbId := fc.2, state := fc.1, addFBCalls := 0,
            openedHandles := [], freedHandles := [] }
        else
          let mod0 :=
            if cfg.compressionType = CompType.afbc then
              let cm := match cfg.comp_src with
                | .g2d => cfg.compressionModifier ||| env.AFBC_SOURCE_G2D
                | .gpu => cfg.compressionModifier ||| env.AFBC_SOURCE_GPU
                | .other => cfg.compressionModifier
              mod0base ||| env.modArmAfbc cm
            else if cfg.compressionType = CompType.sbwc then
              mod0base ||| env.modSamsungSbwc cfg.compressionModifier
            else mod0base
          match resolveHandles env cfg.fd_idma bufferNum with
          | .error opened =>
            { ret := -ENOMEM, fbId := 0, state := fc.1, addFBCalls := 0,
              openedHandles := opened, freedHandles := [] }
          | .ok hs =>
            let handles := setRange zeroArr bufferNum (fun i => hs.getD i 0)
            let pitches := setRange zeroArr bufferNum (fun _ => cfg.src_f_w * bpp)
            let modifiersArr := setRange (upd zeroArr 0 mod0) bufferNum (fun _ => mod0)
            if bufferNum = 1 ∧ planeNum > bufferNum then
              let offsets := upd zeroArr CBCR_INDEX
                (env.getExynosBufferYLength cfg.src_f_w cfg.src_f_h cfg.format)
              let handles2 := setRangeFrom handles 1 planeNum (fun _ => handles 0)
              let pitches2 := setRangeFrom pitches 1 planeNum (fun _ => pitches 0)
              let modifiers2 := setRangeFrom modifiersArr 1 planeNum (fun _ => modifiersArr 0)
              getBufferFinish env fc.1 cfg isSecureBuffer bufWidth bufHeight drmFormat
                bufferNum handles2 pitches2 offsets modifiers2 hs
            else
              getBufferFinish env fc.1 cfg isSecureBuffer bufWidth bufHeight drmFormat
                bufferNum handles pitches zeroArr modifiersArr hs

/-- The `WIN_STATE_COLOR` branch of `getBuffer`. -/
def getBufferColor (env : DrmEnv) (s : FBMState) (cfg : WinConfig)
    (mod0base : Nat) : GetBufferResult :=
  let isSecureBuffer := cfg.protection
  let bufWidth := cfg.dst_w
  let bufHeight := cfg.dst_h
  let mod0 := mod0base ||| env.MOD_SAMSUNG_COLORMAP
  let drmFormat := DRM_FORMAT_BGRA8888
  let handles := upd zeroArr 0 0xff000000
  let bpp := env.getBytePerPixelOfPrimaryPlane HAL_PIXEL_FORMAT_BGRA_8888
  let pitches := upd zeroArr 0 (cfg.dst_w * bpp)
  let fc := findCachedFbId s cfg.layer isSecureBuffer
    (fun fb => fb.desc == FbDesc.color { width := bufWidth, height := bufHeight })
  if fc.2 ≠ 0 then
    { ret := NO_ERROR, fbId := fc.2, state := fc.1, addFBCalls := 0,
      openedHandles := [], freedHandles := [] }
  else
    getBufferFinish env fc.1 cfg isSecureBuffer bufWidth bufHeight drmFormat
      0 handles pitches zeroArr (upd zeroArr 0 mod0) []

/-- `FramebufferManager::getBuffer`. -/
def getBuffer (env : DrmEnv) (s : FBMState) (cfg : WinConfig) : GetBufferResult :=
  let mod0base := if cfg.protection = true then env.MOD_PROTECTION else 0
  match cfg.state with
  | .buffer => getBufferBufferOrRcd env s cfg mod0base
  | .rcd => getBufferBufferOrRcd env s cfg mod0base
  | .color => getBufferColor env s cfg mod0base
  | _ => errResult s (-EINVAL)

/-! ## `DrmModeAtomicReq`: property writes and atomic commit -/

/-- The slice of `DrmProperty` state that `atomicAddProperty` consults: the
kernel property id (`0` = unsupported) and the cached current value used by
the change-suppression check. -/
structure DrmProperty where
  id : Nat
  currentValue : Nat
  deriving DecidableEq, Repr

/-- Modelled from the spec: `DrmProperty::validateChange` belongs to the drm
property class, whose implementation is not among these sources.  Per the
spec's change-suppression rule — a write is skipped "if the new value
structurally equals the last-committed value for that property" — it accepts
a change exactly when the new value differs from the cached current value. -/
def DrmProperty.validateChange (p : DrmProperty) (value : Nat) : Bool :=
  decide (value ≠ p.currentValue)

/-- The mutable state of one `DrmModeAtomicReq` transaction: the accumulated
`(object id, property id, value)` items of the underlying `drmModeAtomicReq`
pset, the recorded error, and whether an ack callback is registered. -/
structure AtomicReqState where
  items : List (Nat × Nat × Nat)
  error : Int
  ackCallbackSet : Bool
  deriving DecidableEq, Repr

/-- A fresh transaction (`drmModeAtomicAlloc`, `mError = 0`). -/
def AtomicReqState.init : AtomicReqState :=
  { items := [], error := 0, ackCallbackSet := false }

/-- Modelled from the spec: `DrmModeAtomicReq::setError` is declared in the
header, which is not among these sources.  Per the spec ("On failure,
records the error for diagnostic dump"), it stores the error code. -/
def setError (r : AtomicReqState) (e : Int) : AtomicReqState :=
  { r with error := e }

/-- `DrmModeAtomicReq::atomicAddProperty`.  `drmAddResult` is the external
libdrm `drmModeAtomicAddProperty` (returns the new cursor `≥ 0` on success,
a negative errno on failure); on its success the item is appended. -/
def atomicAddProperty (drmAddResult : Nat → Nat → Nat → Int)
    (req : AtomicReqState) (objectId : Nat) (property : DrmProperty) (value : Nat)
    (optional : Bool) : Int × AtomicReqState :=
  if optional = false ∧ property.id = 0 then (-EINVAL, req)
  else if property.id ≠ 0 ∧ property.validateChange value = true then
    let r := drmAddResult objectId property.id value
    if r < 0 then (r, req)
    else (NO_ERROR, { req with items := req.items ++ [(objectId, property.id, value)] })
  else (NO_ERROR, req)

/-- `DRM_MODE_ATOMIC_TEST_ONLY` flag (drm_mode.h). -/
def DRM_MODE_ATOMIC_TEST_ONLY : Nat := 0x0100

/-- Outcome of `DrmModeAtomicReq::commit`: the returned status, the
transaction state (with any recorded error), and whether the registered ack
callback was invoked. -/
structure CommitResult where
  ret : Int
  req : AtomicReqState
  ackInvoked : Bool
  deriving DecidableEq, Repr

/-- `DrmModeAtomicReq::commit`.  `kernelResult` is the status returned by the
external `drmModeAtomicCommit` kernel call, `isDrmInTUI` the device's
trusted-UI (protected execution context) report.  A `-EPERM` while in TUI is
converted to success and not treated as an error; any other negative result
is recorded via `setError` and returned. -/
def DrmModeAtomicReq_commit (req : AtomicReqState) (flags : Nat)
    (kernelResult : Int) (isDrmInTUI : Bool) : CommitResult :=
  let r0 := kernelResult
  let out :=
    if r0 = -EPERM ∧ isDrmInTUI = true then (NO_ERROR, req)
    else if r0 < 0 then (r0, setError req r0)
    else (r0, req)
  let ack := decide (out.1 = 0) && req.ackCallbackSet &&
    decide (flags &&& DRM_MODE_ATOMIC_TEST_ONLY = 0)
  { ret := out.1, req := out.2, ackInvoked := ack }

/-! ## `ExynosVsyncCallback::Callback` -/

/-- `SIGNAL_TIME_INVALID` from libsync (`-1`). -/
def SIGNAL_TIME_INVALID : Int := -1

/-- `SIGNAL_TIME_PENDING` from libsync (`INT64_MAX`). -/
def SIGNAL_TIME_PENDING : Int := 9223372036854775807

/-- `static_cast<int32_t>` of a wider integer: reduce modulo `2^32` into
the signed range `[-2^31, 2^31)`.  Any wrap of the operand modulo `2^64`
(unsigned 64-bit subtraction) is absorbed, since `2^32` divides `2^64`. -/
def toInt32 (x : Int) : Int :=
  (x + 2 ^ 31) % 2 ^ 32 - 2 ^ 31

/-- The fields of `ExynosVsyncCallback` used by `Callback`.  Timestamps and
periods are nanoseconds; the declared integer widths of the fields live in
the header, so the fields are modelled as mathematical integers, while the
explicit `static_cast<int32_t>` written in the 20 %-margin comparison of
`Callback` is modelled by `toInt32`. -/
structure VsyncCallbackState where
  vsyncTimeStamp : Int
  vsyncPeriod : Int
  desiredVsyncPeriod : Int
  modeSetFence : Int
  transientDuration : Int
  deriving DecidableEq, Repr

/-- `ExynosDisplayDrmInterface::ExynosVsyncCallback::Callback`.
`getSignalTime` is the external fence query.  Returns the updated callback
state and the "config request applied" flag the caller uses to decide
whether the pending mode switch has taken effect.  The 20 %-margin check
compares `abs(static_cast<int32_t>(mDesiredVsyncPeriod - mVsyncPeriod))`,
so the difference is truncated modulo `2^32` (`toInt32`) before the
absolute value; `abs` is the mathematical absolute value of the truncated
representative (C's `abs(INT32_MIN)` is undefined behaviour, so the single
representative `-2^31` is given its mathematical magnitude here). -/
def ExynosVsyncCallback_Callback (getSignalTime : Int → Int)
    (st : VsyncCallbackState) (timestamp : Int) : VsyncCallbackState × Bool :=
  let stA := if st.vsyncTimeStamp > 0 then
      { st with vsyncPeriod := timestamp - st.vsyncTimeStamp }
    else st
  let st2 := { stA with vsyncTimeStamp := timestamp }
  if st2.desiredVsyncPeriod = 0 then (st2, true)
  else
    let error := st2.desiredVsyncPeriod / 5
    if |toInt32 (st2.desiredVsyncPeriod - st2.vsyncPeriod)| < error then (st2, true)
    else
      let signalTime := getSignalTime st2.modeSetFence
      if signalTime ≠ SIGNAL_TIME_INVALID ∧ signalTime ≠ SIGNAL_TIME_PENDING ∧
          timestamp > signalTime + st2.vsyncPeriod * st2.transientDuration - error then
        ({ st2 with modeSetFence := -1 }, true)
      else (st2, false)

/-! ## Mode-set state and `setActiveConfigWithConstraints` -/

/-- `HWC2_ERROR_NONE` (hwc2.h). -/
def HWC2_ERROR_NONE : Int := 0

/-- `HWC2_ERROR_BAD_CONFIG` (hwc2.h). -/
def HWC2_ERROR_BAD_CONFIG : Int := 2

/-- The fields of `DrmMode` consulted by the mode-switch logic. -/
structure DrmMode where
  id : Nat
  te_period : Int
  h_display : Nat
  v_display : Nat
  deriving DecidableEq, Repr

/-- One `ExynosDisplayDrmInterface::ModeState` instance (active or desired):
the mode and its kernel property-blob id. -/
structure ModeState where
  mode : DrmMode
  blob_id : Nat
  deriving DecidableEq, Repr

/-- Modelled from the spec: `ModeState::needsModeSet` is declared in the
header, which is not among these sources.  Per the spec,
"`needsModeSet()` ⇔ `blobId != 0`". -/
def ModeState.needsModeSet (ms : ModeState) : Bool :=
  decide (ms.blob_id ≠ 0)

/-- Modelled from the spec: `ModeState::isFullModeSwitch` is declared in the
header, which is not among these sources.  Per the spec, a full mode switch
is "a display mode change that alters resolution or timing class, as opposed
to a refresh-rate-only change": the stored and the new mode differ in
resolution. -/
def ModeState.isFullModeSwitch (ms : ModeState) (m : DrmMode) : Bool :=
  decide (ms.mode.h_display ≠ m.h_display ∨ ms.mode.v_display ≠ m.v_display)

/-- `ExynosDisplayDrmInterface` state consulted and mutated by
`setActiveConfigWithConstraints`. -/
structure DisplayModeCtx where
  desiredModeState : ModeState
  activeModeState : ModeState
  modes : List DrmMode
  isResolutionSwitchInProgress : Bool
  deriving DecidableEq, Repr

/-- Oracle environment for the mode-switch functions: the drm device and
object/property catalog (external collaborators) and the kernel results of
the external calls made on this path. -/
structure ModeEnv where
  CreatePropertyBlob : DrmMode → Int × Nat
  crtcId : Nat
  connectorId : Nat
  activeProp : DrmProperty
  modeProp : DrmProperty
  crtcIdProp : DrmProperty
  drmAddResult : Nat → Nat → Nat → Int
  hasConfigChangeCallback : Bool
  commitKernelResult : Int
  isDrmInTUI : Bool

/-- `ExynosDisplayDrmInterface::createModeBlob`: build the mode-info blob via
the device's `CreatePropertyBlob`; the out-parameter stays `0` on failure. -/
def createModeBlob (env : ModeEnv) (mode : DrmMode) : Int × Nat :=
  let r := env.CreatePropertyBlob mode
  if r.1 ≠ 0 then (r.1, 0) else (NO_ERROR, r.2)

/-- `ExynosDisplayDrmInterface::setDisplayMode`: three required property
writes (CRTC active, CRTC mode blob, connector CRTC id), then registration
of the config-change ack callback when one is configured. -/
def setDisplayMode (env : ModeEnv) (drmReq : AtomicReqState) (modeBlob : Nat)
    (modeId : Nat) : Int × AtomicReqState :=
  let r1 := atomicAddProperty env.drmAddResult drmReq env.crtcId env.activeProp 1 false
  if r1.1 < 0 then r1
  else
    let r2 := atomicAddProperty env.drmAddResult r1.2 env.crtcId env.modeProp modeBlob false
    if r2.1 < 0 then r2
    else
      let r3 := atomicAddProperty env.drmAddResult r2.2 env.connectorId env.crtcIdProp
        env.crtcId false
      if r3.1 < 0 then r3
      else
        let q := if env.hasConfigChangeCallback = true then
            { r3.2 with ackCallbackSet := true }
          else r3.2
        (NO_ERROR, q)

/-- The trailing `if (mIsResolutionSwitchInProgress && ...)` block of
`DrmModeAtomicReq::commit`, which clears the resolution-switch flag once no
mode set is pending. -/
def commitCtxUpdate (ctx : DisplayModeCtx) : DisplayModeCtx :=
  if ctx.isResolutionSwitchInProgress = true ∧ ctx.desiredModeState.needsModeSet = false then
    { ctx with isResolutionSwitchInProgress := false }
  else ctx

/-- Outcome of `setActiveConfigWithConstraints`: the returned status, the
updated interface state, the number of property blobs successfully created,
the final transaction (its `items` are the property writes added), the blob
ids marked old on the transaction via `addOldBlob` (destroyed when the
transaction is destroyed), and the blob ids destroyed directly. -/
structure SetActiveConfigResult where
  ret : Int
  ctx : DisplayModeCtx
  blobsCreated : Nat
  req : AtomicReqState
  oldBlobs : List Nat
  destroyedBlobs : List Nat
  deriving DecidableEq, Repr

/-- The part of `setActiveConfigWithConstraints` after blob creation
(from the `isResSwitch` computation to the end). -/
def setActiveConfigTail (env : ModeEnv) (ctx : DisplayModeCtx) (test : Bool)
    (mode : DrmMode) (modeBlob : Nat) (created : Nat) (drmReq : AtomicReqState) :
    SetActiveConfigResult :=
  let isResSwitch := decide (ctx.activeModeState.blob_id ≠ 0) &&
    ctx.activeModeState.isFullModeSwitch mode
  if test = false then
    if modeBlob ≠ 0 then
      let ctx1 := if ctx.desiredModeState.isFullModeSwitch mode = true then
          { ctx with isResolutionSwitchInProgress := true }
        else ctx
      let oldBlob := ctx1.desiredModeState.blob_id
      let ctx2 := { ctx1 with desiredModeState := { mode := mode, blob_id := modeBlob } }
      { ret := HWC2_ERROR_NONE, ctx := ctx2, blobsCreated := created,
        req := drmReq, oldBlobs := [oldBlob], destroyedBlobs := [] }
    else
      { ret := HWC2_ERROR_NONE, ctx := ctx, blobsCreated := created,
        req := drmReq, oldBlobs := [], destroyedBlobs := [] }
  else
    if isResSwitch = false then
      let sdm := setDisplayMode env drmReq
        (if modeBlob ≠ 0 then modeBlob else ctx.desiredModeState.blob_id)
        (if modeBlob ≠ 0 then mode.id else ctx.desiredModeState.mode.id)
      if sdm.1 < 0 then
        { ret := sdm.1, ctx := ctx, blobsCreated := created,
          req := sdm.2, oldBlobs := [], destroyedBlobs := [] }
      else
        let c := DrmModeAtomicReq_commit sdm.2 DRM_MODE_ATOMIC_TEST_ONLY
          env.commitKernelResult env.isDrmInTUI
        let ctx2 := commitCtxUpdate ctx
        if c.ret ≠ 0 then
          { ret := c.ret, ctx := ctx2, blobsCreated := created,
            req := c.req, oldBlobs := [modeBlob], destroyedBlobs := [] }
        else
          { ret := HWC2_ERROR_NONE, ctx := ctx2, blobsCreated := created, req := c.req,
            oldBlobs := [],
            destroyedBlobs := if modeBlob ≠ 0 then [modeBlob] else [] }
    else
      { ret := HWC2_ERROR_NONE, ctx := ctx, blobsCreated := created, req := drmReq,
        oldBlobs := [],
        destroyedBlobs := if modeBlob ≠ 0 then [modeBlob] else [] }

/-- `ExynosDisplayDrmInterface::setActiveConfigWithConstraints`. -/
def setActiveConfigWithConstraints (env : ModeEnv) (ctx : DisplayModeCtx)
    (config : Nat) (test : Bool) : SetActiveConfigResult :=
  match ctx.modes.find? (fun m => m.id == config) with
  | none =>
    { ret := HWC2_ERROR_BAD_CONFIG, ctx := ctx, blobsCreated := 0,
      req := AtomicReqState.init, oldBlobs := [], destroyedBlobs := [] }
  | some mode =>
    if ctx.desiredModeState.needsModeSet = false ∧
        ctx.activeModeState.blob_id ≠ 0 ∧ ctx.activeModeState.mode.id = config then
      -- same mode: only `setDesiredVsyncPeriod` / `VSyncControl` on the vsync
      -- callback are triggered; no transaction is built and no blob created.
      { ret := HWC2_ERROR_NONE, ctx := ctx, blobsCreated := 0,
        req := AtomicReqState.init, oldBlobs := [], destroyedBlobs := [] }
    else
      let drmReq := AtomicReqState.init
      if ctx.desiredModeState.mode.id ≠ config then
        let cb := createModeBlob env mode
        if cb.1 ≠ NO_ERROR then
          { ret := HWC2_ERROR_BAD_CONFIG, ctx := ctx, blobsCreated := 0,
            req := drmReq, oldBlobs := [], destroyedBlobs := [] }
        else
          setActiveConfigTail env ctx test mode cb.2 1 drmReq
      else
        setActiveConfigTail env ctx test mode 0 0 drmReq

/-! ## Helper lemmas -/

theorem markInuse_fields (s : FBMState) (l : LayerPtr) (b : Bool) :
    (markInuseLayerLocked s l b).cachedLayerBuffers = s.cachedLayerBuffers ∧
    (markInuseLayerLocked s l b).cachedSecureLayerBuffers = s.cachedSecureLayerBuffers ∧
    (markInuseLayerLocked s l b).cleanBuffers = s.cleanBuffers := by
  simp only [markInuseLayerLocked]
  split <;> split <;> simp

theorem destroyUnusedLayersOne_mem (sp : Bool) (inuse : List LayerPtr)
    (cache : BucketMap) (clean : FBList) (l : LayerPtr) (fbl : FBList)
    (fb : Framebuffer)
    (hmem : (l, fbl) ∈ cache) (hfb : fb ∈ fbl) :
    (l, fbl) ∈ (destroyUnusedLayersOne sp inuse cache clean).1 ∨
      fb ∈ (destroyUnusedLayersOne sp inuse cache clean).2.1 := by
  unfold destroyUnusedLayersOne
  split
  · exact Or.inl hmem
  · by_cases h : l ∈ inuse
    · refine Or.inl ?_
      simp only [List.mem_filter]
      exact ⟨hmem, by simpa using h⟩
    · refine Or.inr ?_
      simp only [List.mem_append, List.mem_flatten]
      refine Or.inr ⟨fbl, ?_, hfb⟩
      refine List.mem_map.mpr ⟨(l, fbl), ?_, rfl⟩
      simp only [List.mem_filter]
      exact ⟨hmem, by simpa using h⟩

theorem destroyUnusedLayersOne_clean_mono {fb : Framebuffer}
    (sp : Bool) (inuse : List LayerPtr) (cache : BucketMap) (clean : FBList)
    (hfb : fb ∈ clean) :
    fb ∈ (destroyUnusedLayersOne sp inuse cache clean).2.1 := by
  unfold destroyUnusedLayersOne
  split
  · exact hfb
  · exact List.mem_append.mpr (Or.inl hfb)

/-! ## Claim C2: secure isolation of `flip(hasSecureBuffer = false)` -/

/-- Claim C2: for every prior cache state, after
`FramebufferManager::flip(hasSecureBuffer = false)` the secure cache
(`mCachedSecureLayerBuffers`) is empty, and every framebuffer that was in
any secure bucket, for every owner, has been moved to the reclaim
(`mCleanBuffers`) list. -/
theorem flip_secure_isolation (s : FBMState) :
    (flip s false).state.cachedSecureLayerBuffers = [] ∧
    ∀ l fbl fb, (l, fbl) ∈ s.cachedSecureLayerBuffers → fb ∈ fbl →
      fb ∈ (flip s false).state.cleanBuffers := by
  constructor
  · rfl
  · intro l fbl fb hmem hfb
    have h1 := destroyUnusedLayersOne_mem
      s.cacheSecureShrinkPending s.cachedSecureLayersInuse s.cachedSecureLayerBuffers
      (destroyUnusedLayersOne s.cacheShrinkPending s.cachedLayersInuse
        s.cachedLayerBuffers s.cleanBuffers).2.1 l fbl fb hmem hfb
    have hgoal : (flip s false).state.cleanBuffers =
        (destroyUnusedLayersOne s.cacheSecureShrinkPending s.cachedSecureLayersInuse
          s.cachedSecureLayerBuffers
          (destroyUnusedLayersOne s.cacheShrinkPending s.cachedLayersInuse
            s.cachedLayerBuffers s.cleanBuffers).2.1).2.1 ++
        ((destroyUnusedLayersOne s.cacheSecureShrinkPending s.cachedSecureLayersInuse
          s.cachedSecureLayerBuffers
          (destroyUnusedLayersOne s.cacheShrinkPending s.cachedLayersInuse
            s.cachedLayerBuffers s.cleanBuffers).2.1).1.map Prod.snd).flatten := rfl
    rw [hgoal]
    rcases h1 with h1 | h1
    · exact List.mem_append.mpr
        (Or.inr (List.mem_flatten.mpr ⟨fbl, List.mem_map.mpr ⟨(l, fbl), h1, rfl⟩, hfb⟩))
    · exact List.mem_append.mpr (Or.inl h1)

/-- Witness for C2 at a concrete state: one secure bucket with one entry. -/
def c2Fb : Framebuffer := { fbId := 101, desc := .buffer { bufferId := 7, drmFormat := 1, isSecure := true } }

def c2State : FBMState :=
  { cachedLayerBuffers := []
    cachedSecureLayerBuffers := [(some 1, [c2Fb])]
    cleanBuffers := []
    cacheShrinkPending := false
    cacheSecureShrinkPending := false
    cachedLayersInuse := []
    cachedSecureLayersInuse := [] }

theorem flip_secure_isolation_witness :
    (flip c2State false).state.cachedSecureLayerBuffers = [] ∧
    c2Fb ∈ (flip c2State false).state.cleanBuffers :=
  ⟨(flip_secure_isolation c2State).1,
    (flip_secure_isolation c2State).2 (some 1) [c2Fb] c2Fb (by simp [c2State]) (by simp)⟩

/-! ## Claim C8: when `flip` signals `mFlipDone` -/

def c8Fb : Framebuffer := { fbId := 55, desc := .buffer { bufferId := 1, drmFormat := 2, isSecure := false } }

def c8State : FBMState :=
  { cachedLayerBuffers := []
    cachedSecureLayerBuffers := []
    cleanBuffers := [c8Fb]
    cacheShrinkPending := false
    cacheSecureShrinkPending := false
    cachedLayersInuse := []
    cachedSecureLayersInuse := [] }

/-- Counterexample to claim C8 as stated: at this state the reclaim list is
already non-empty before the call and this `flip` call moves nothing
(the reclaim list is unchanged), yet `mFlipDone` is still signaled — so the
signal does not happen "exactly when the reclaim list became non-empty as a
result of this call". -/
theorem flip_signal_claim_counterexample :
    (flip c8State true).signaled = true ∧
    c8State.cleanBuffers ≠ [] ∧
    (flip c8State true).state.cleanBuffers = c8State.cleanBuffers := by
  refine ⟨rfl, by simp [c8State], rfl⟩

/-- Claim C8 (amended): `flip` signals `mFlipDone` exactly when the reclaim
list is non-empty after the call (in particular it never signals when the
reclaim list is empty after the call), regardless of whether this call is
what made it non-empty. -/
theorem flip_signal_iff_nonempty_after (s : FBMState) (hasSecureBuffer : Bool) :
    (flip s hasSecureBuffer).signaled =
      !(flip s hasSecureBuffer).state.cleanBuffers.isEmpty := by
  have h : ∀ (l : FBList), decide (l.length > 0) = !l.isEmpty := by
    intro l; cases l <;> simp
  unfold flip
  exact h _

/-! ## Claim C4: protected-context commit failures are swallowed -/

/-- Claim C4: in `DrmModeAtomicReq::commit`, a kernel result of `-EPERM`
while the device reports being in the trusted execution context (TUI) is
returned as `NO_ERROR` with the transaction state untouched (no error
recorded); any other nonzero kernel result (kernel atomic commits return
`0` or a negative errno, hence the `kernelResult ≤ 0` domain hypothesis) is
recorded as the transaction's error and returned. -/
theorem commit_protected_context_swallow (req : AtomicReqState) (flags : Nat)
    (kernelResult : Int) (isDrmInTUI : Bool) :
    (kernelResult = -EPERM → isDrmInTUI = true →
      (DrmModeAtomicReq_commit req flags kernelResult isDrmInTUI).ret = NO_ERROR ∧
      (DrmModeAtomicReq_commit req flags kernelResult isDrmInTUI).req = req) ∧
    (kernelResult ≤ 0 → kernelResult ≠ 0 →
      ¬(kernelResult = -EPERM ∧ isDrmInTUI = true) →
      (DrmModeAtomicReq_commit req flags kernelResult isDrmInTUI).ret = kernelResult ∧
      (DrmModeAtomicReq_commit req flags kernelResult isDrmInTUI).req = setError req kernelResult) := by
  constructor
  · intro h1 h2
    simp [DrmModeAtomicReq_commit, h1, h2]
  · intro hle hne hnot
    have hlt : kernelResult < 0 := lt_of_le_of_ne hle hne
    simp [DrmModeAtomicReq_commit, hnot, hlt]

/-- Witness for C4: both branches at concrete inputs (`-EPERM` in TUI is
swallowed; `-EINVAL` outside TUI is recorded and returned). -/
theorem commit_protected_context_swallow_witness :
    ((DrmModeAtomicReq_commit AtomicReqState.init 0 (-EPERM) true).ret = NO_ERROR ∧
     (DrmModeAtomicReq_commit AtomicReqState.init 0 (-EPERM) true).req = AtomicReqState.init) ∧
    ((DrmModeAtomicReq_commit AtomicReqState.init 0 (-EINVAL) false).ret = -EINVAL ∧
     (DrmModeAtomicReq_commit AtomicReqState.init 0 (-EINVAL) false).req =
       setError AtomicReqState.init (-EINVAL)) :=
  ⟨(commit_protected_context_swallow AtomicReqState.init 0 (-EPERM) true).1 rfl rfl,
   (commit_protected_context_swallow AtomicReqState.init 0 (-EINVAL) false).2
     (by decide) (by decide) (by decide)⟩

/-! ## Claim C5: required versus optional property writes -/

/-- Claim C5: in `DrmModeAtomicReq::atomicAddProperty`, an unsupported
property (kernel id `0`) that is not optional yields `-EINVAL` and adds
nothing; an unsupported optional property yields success and adds nothing;
and outside the unsupported-and-required error case, a value equal to the
property's current value (change-suppression) yields success and adds
nothing. -/
theorem atomicAddProperty_unsupported_and_suppression
    (drmAddResult : Nat → Nat → Nat → Int) (req : AtomicReqState)
    (objectId : Nat) (property : DrmProperty) (value : Nat) (optional : Bool) :
    (property.id = 0 → optional = false →
      atomicAddProperty drmAddResult req objectId property value optional = (-EINVAL, req)) ∧
    (property.id = 0 → optional = true →
      atomicAddProperty drmAddResult req objectId property value optional = (NO_ERROR, req)) ∧
    (¬(optional = false ∧ property.id = 0) → value = property.currentValue →
      atomicAddProperty drmAddResult req objectId property value optional = (NO_ERROR, req)) := by
  refine ⟨?_, ?_, ?_⟩
  · intro h1 h2
    simp [atomicAddProperty, h1, h2]
  · intro h1 h2
    simp [atomicAddProperty, h1, h2]
  · intro h1 h2
    simp [atomicAddProperty, DrmProperty.validateChange, h1, h2]

/-- Witness for C5: the three branches at concrete inputs. -/
theorem atomicAddProperty_unsupported_and_suppression_witness :
    (atomicAddProperty (fun _ _ _ => 0) AtomicReqState.init 1
      { id := 0, currentValue := 5 } 9 false = (-EINVAL, AtomicReqState.init)) ∧
    (atomicAddProperty (fun _ _ _ => 0) AtomicReqState.init 1
      { id := 0, currentValue := 5 } 9 true = (NO_ERROR, AtomicReqState.init)) ∧
    (atomicAddProperty (fun _ _ _ => 0) AtomicReqState.init 1
      { id := 3, currentValue := 5 } 5 false = (NO_ERROR, AtomicReqState.init)) :=
  ⟨(atomicAddProperty_unsupported_and_suppression (fun _ _ _ => 0) AtomicReqState.init 1
      { id := 0, currentValue := 5 } 9 false).1 rfl rfl,
   (atomicAddProperty_unsupported_and_suppression (fun _ _ _ => 0) AtomicReqState.init 1
      { id := 0, currentValue := 5 } 9 true).2.1 rfl rfl,
   (atomicAddProperty_unsupported_and_suppression (fun _ _ _ => 0) AtomicReqState.init 1
      { id := 3, currentValue := 5 } 5 false).2.2 (by simp) rfl⟩

/-! ## Claim C6: vsync mode-switch convergence rule -/

def c6cState : VsyncCallbackState :=
  { vsyncTimeStamp := 1
    vsyncPeriod := 0
    desiredVsyncPeriod := 10000000
    modeSetFence := 3
    transientDuration := 1 }

/-- The timestamp after a vsync gap of desired + `2^32` nanoseconds. -/
def c6cTs : Int := 1 + 10000000 + 2 ^ 32

/-- Counterexample to claim C6 as stated: with a desired period of 10 ms
and an observed period of exactly desired + `2^32` ns (a vsync gap of
about 4.3 s, e.g. after the screen was off), the `static_cast<int32_t>`
in the code wraps the difference to 0, so `Callback` reports the switch
applied — while the claim's exact-arithmetic condition holds for none of
its three clauses (the difference is `2^32`, far outside 20 %, and the
timeout bound has not elapsed for this fence signal time). -/
theorem vsync_callback_claim_counterexample :
    (ExynosVsyncCallback_Callback (fun _ => 10 ^ 10) c6cState c6cTs).2 = true ∧
    ¬(c6cState.desiredVsyncPeriod = 0 ∨
      |c6cState.desiredVsyncPeriod - (c6cTs - c6cState.vsyncTimeStamp)| <
        c6cState.desiredVsyncPeriod / 5 ∨
      c6cTs > (10 : Int) ^ 10 +
        (c6cTs - c6cState.vsyncTimeStamp) * c6cState.transientDuration -
          c6cState.desiredVsyncPeriod / 5) := by
  decide

/-- Claim C6 (amended): `ExynosVsyncCallback::Callback` reports the mode
switch as applied exactly when no desired vsync period is pending, or the
difference between the desired period and the observed period (this
timestamp minus the previous one), truncated to a signed 32-bit integer as
by the source's `static_cast<int32_t>` (reduction modulo `2^32` into
`[-2^31, 2^31)`), is in absolute value below 20 % of the desired period,
or the vsync-timeout bound has elapsed (the timestamp exceeds the mode-set
fence signal time plus the observed period times the transient duration,
minus the 20 % margin).  Because of the truncation, observed periods that
differ from the desired period by close to a multiple of `2^32` ns
(≈ 4.29 s) also count as applied.  Hypotheses: a previous timestamp exists
and the mode-set fence has a valid, non-pending signal time (the timeout
clause of the claim presupposes a signal time). -/
theorem vsync_callback_applied_iff (getSignalTime : Int → Int)
    (st : VsyncCallbackState) (timestamp : Int)
    (hprev : st.vsyncTimeStamp > 0)
    (hinv : getSignalTime st.modeSetFence ≠ SIGNAL_TIME_INVALID)
    (hpend : getSignalTime st.modeSetFence ≠ SIGNAL_TIME_PENDING) :
    (ExynosVsyncCallback_Callback getSignalTime st timestamp).2 = true ↔
      (st.desiredVsyncPeriod = 0 ∨
       |toInt32 (st.desiredVsyncPeriod - (timestamp - st.vsyncTimeStamp))| <
         st.desiredVsyncPeriod / 5 ∨
       timestamp > getSignalTime st.modeSetFence +
         (timestamp - st.vsyncTimeStamp) * st.transientDuration -
           st.desiredVsyncPeriod / 5) := by
  simp only [ExynosVsyncCallback_Callback, if_pos hprev]
  by_cases h0 : st.desiredVsyncPeriod = 0
  · simp [h0]
  · by_cases h20 : |toInt32 (st.desiredVsyncPeriod - (timestamp - st.vsyncTimeStamp))| <
        st.desiredVsyncPeriod / 5
    · simp [h0, h20]
    · by_cases hto : timestamp > getSignalTime st.modeSetFence +
          (timestamp - st.vsyncTimeStamp) * st.transientDuration -
            st.desiredVsyncPeriod / 5
      · simp [h0, h20, hto, hinv, hpend]
      · simp [h0, h20, hto, hinv, hpend]

def c6State : VsyncCallbackState :=
  { vsyncTimeStamp := 100
    vsyncPeriod := 0
    desiredVsyncPeriod := 10
    modeSetFence := 3
    transientDuration := 2 }

/-- Witness for the amended C6: a concrete state where the observed period
(10) equals the desired period (10), so the truncated difference is 0 and
the callback reports applied. -/
theorem vsync_callback_applied_iff_witness :
    (ExynosVsyncCallback_Callback (fun _ => 5) c6State 110).2 = true :=
  (vsync_callback_applied_iff (fun _ => 5) c6State 110 (by decide) (by decide)
    (by decide)).mpr (Or.inr (Or.inl (by decide)))

/-! ## Claim C9: mode-request idempotence -/

/-- Claim C9: `setActiveConfigWithConstraints(config)` when no mode change
is pending (`mDesiredModeState.blob_id = 0`, i.e. `needsModeSet()` is
false) and `config` is already the active mode (`mActiveModeState.blob_id ≠
0` and the active mode id equals `config`) returns success, creates zero
property blobs, adds zero property writes to any transaction, and leaves
the mode state unchanged (only the vsync callback's desired period is
re-armed, which is outside the mode state). -/
theorem setActiveConfig_same_mode_noop (env : ModeEnv) (ctx : DisplayModeCtx)
    (config : Nat) (test : Bool)
    (hfind : (ctx.modes.find? (fun m => m.id == config)).isSome = true)
    (hpend : ctx.desiredModeState.blob_id = 0)
    (hactive : ctx.activeModeState.blob_id ≠ 0)
    (hsame : ctx.activeModeState.mode.id = config) :
    setActiveConfigWithConstraints env ctx config test =
      { ret := HWC2_ERROR_NONE, ctx := ctx, blobsCreated := 0,
        req := AtomicReqState.init, oldBlobs := [], destroyedBlobs := [] } := by
  obtain ⟨m, hm⟩ := Option.isSome_iff_exists.mp hfind
  simp [setActiveConfigWithConstraints, hm, ModeState.needsModeSet, hpend, hactive, hsame]

def c9Mode : DrmMode := { id := 4, te_period := 16666666, h_display := 1080, v_display := 2400 }

def c9Ctx : DisplayModeCtx :=
  { desiredModeState := { mode := c9Mode, blob_id := 0 }
    activeModeState := { mode := c9Mode, blob_id := 12 }
    modes := [c9Mode]
    isResolutionSwitchInProgress := false }

def c9Env : ModeEnv :=
  { CreatePropertyBlob := fun _ => (0, 33)
    crtcId := 40
    connectorId := 50
    activeProp := { id := 41, currentValue := 0 }
    modeProp := { id := 42, currentValue := 0 }
    crtcIdProp := { id := 51, currentValue := 0 }
    drmAddResult := fun _ _ _ => 0
    hasConfigChangeCallback := false
    commitKernelResult := 0
    isDrmInTUI := false }

/-- Witness for C9 at a concrete context: requesting the already-active
mode 4 with no pending mode change is a no-op success. -/
theorem setActiveConfig_same_mode_noop_witness :
    setActiveConfigWithConstraints c9Env c9Ctx 4 false =
      { ret := HWC2_ERROR_NONE, ctx := c9Ctx, blobsCreated := 0,
        req := AtomicReqState.init, oldBlobs := [], destroyedBlobs := [] } :=
  setActiveConfig_same_mode_noop c9Env c9Ctx 4 false (by decide) (by decide)
    (by decide) (by decide)

/-! ## Helper lemmas for the `getBuffer` claims -/

/-- The GEM handles obtained for the first `n` dma-buf fds of a config. -/
def resolvedHandles (env : DrmEnv) (cfg : WinConfig) (n : Nat) : List Nat :=
  (List.range n).map (fun i => env.getBufHandleFromFd (cfg.fd_idma i))

theorem find?_map_setBucket (m : BucketMap) (l : LayerPtr) (b : FBList) :
    (m.map (fun e => if e.1 == l then (l, b) else e)).find? (fun e => e.1 == l) =
      if m.any (fun e => e.1 == l) then some (l, b) else none := by
  induction m with
  | nil => simp
  | cons e t ih =>
    simp only [List.map_cons, List.any_cons]
    by_cases he : (e.1 == l) = true
    · rw [if_pos he, List.find?_cons_of_pos _ (by simp)]
      simp [he]
    · have hef : (e.1 == l) = false := by simpa using he
      rw [if_neg he, List.find?_cons_of_neg _ (by simp [hef]), ih]
      simp only [hef, Bool.false_or]

theorem find?_append_of_none (m : BucketMap) (l : LayerPtr) (b : FBList)
    (hall : ∀ e ∈ m, (e.1 == l) = false) :
    (m ++ [(l, b)]).find? (fun e => e.1 == l) = some (l, b) := by
  induction m with
  | nil => simp
  | cons e t ih =>
    have he : (e.1 == l) = false := hall e (List.mem_cons_self e t)
    rw [List.cons_append, List.find?_cons_of_neg _ (by simp [he])]
    exact ih (fun x hx => hall x (List.mem_cons_of_mem _ hx))

theorem lookupBucket_setBucket (m : BucketMap) (l : LayerPtr) (b : FBList) :
    lookupBucket (setBucket m l b) l = b := by
  unfold setBucket
  by_cases h : m.any (fun e => e.1 == l) = true
  · rw [if_pos h]
    unfold lookupBucket
    rw [find?_map_setBucket, if_pos h]
    rfl
  · rw [if_neg h]
    unfold lookupBucket
    have hall : ∀ e ∈ m, (e.1 == l) = false := by
      intro e he
      by_contra hc
      exact h (List.any_eq_true.mpr ⟨e, he, by simpa using hc⟩)
    rw [find?_append_of_none m l b hall]
    rfl

theorem map_getD_range (hs : List Nat) :
    (List.range hs.length).map (fun i => hs.getD i 0) = hs := by
  induction hs with
  | nil => simp
  | cons a t ih =>
    rw [List.length_cons, List.range_succ_eq_map, List.map_cons, List.map_map]
    have hf : ((fun i => (a :: t).getD i 0) ∘ Nat.succ) = (fun i => t.getD i 0) := by
      funext i
      simp
    rw [List.getD_cons_zero, hf, ih]

theorem filter_map_range_eq (n : Nat) (arr : Nat → Nat) (hs : List Nat)
    (hlen : hs.length = n) (harr : ∀ i, i < n → arr i = hs.getD i 0)
    (hnz : ∀ x ∈ hs, x ≠ 0) :
    ((List.range n).map arr).filter (fun h => h ≠ 0) = hs := by
  have hmap : (List.range n).map arr = hs := by
    have h1 : (List.range n).map arr = (List.range n).map (fun i => hs.getD i 0) :=
      List.map_congr_left (fun i hi => harr i (List.mem_range.mp hi))
    rw [h1, ← hlen, map_getD_range]
  rw [hmap]
  exact List.filter_eq_self.mpr (fun a ha => by simpa using hnz a ha)

theorem range_succ_handle_shift (env : DrmEnv) (fd : Nat → Int) (start k : Nat) :
    (List.range (k + 1)).map (fun i => env.getBufHandleFromFd (fd (start + i))) =
      env.getBufHandleFromFd (fd start) ::
        (List.range k).map (fun i => env.getBufHandleFromFd (fd (start + 1 + i))) := by
  rw [List.range_succ_eq_map, List.map_cons, List.map_map]
  congr 1
  refine List.map_congr_left (fun a _ => ?_)
  simp only [Function.comp_apply]
  congr 2
  omega

theorem resolveHandlesFrom_ok (env : DrmEnv) (fd : Nat → Int) :
    ∀ (count start : Nat),
    (∀ i, i < count → env.getBufHandleFromFd (fd (start + i)) ≠ 0) →
    resolveHandlesFrom env fd start count =
      .ok ((List.range count).map (fun i => env.getBufHandleFromFd (fd (start + i)))) := by
  intro count
  induction count with
  | zero => intro start _; simp [resolveHandlesFrom]
  | succ k ih =>
    intro start h
    have h0 : env.getBufHandleFromFd (fd start) ≠ 0 := by
      have := h 0 (Nat.succ_pos k)
      simpa using this
    have hrec := ih (start + 1) (fun i hi => by
      have := h (i + 1) (Nat.succ_lt_succ hi)
      simpa [Nat.add_assoc, Nat.add_comm 1 i] using this)
    rw [resolveHandlesFrom, if_neg h0, hrec, range_succ_handle_shift]

theorem resolveHandles_ok (env : DrmEnv) (cfg : WinConfig) (n : Nat)
    (h : ∀ i, i < n → env.getBufHandleFromFd (cfg.fd_idma i) ≠ 0) :
    resolveHandles env cfg.fd_idma n = .ok (resolvedHandles env cfg n) := by
  unfold resolveHandles resolvedHandles
  rw [resolveHandlesFrom_ok env cfg.fd_idma n 0 (fun i hi => by simpa using h i hi)]
  congr 1
  exact List.map_congr_left (fun i _ => by simp)

theorem resolveHandlesFrom_error (env : DrmEnv) (fd : Nat → Int) :
    ∀ (k count start : Nat), k < count →
    (∀ i, i < k → env.getBufHandleFromFd (fd (start + i)) ≠ 0) →
    env.getBufHandleFromFd (fd (start + k)) = 0 →
    resolveHandlesFrom env fd start count =
      .error ((List.range k).map (fun i => env.getBufHandleFromFd (fd (start + i)))) := by
  intro k
  induction k with
  | zero =>
    intro count start hk _ hfail
    obtain ⟨c, rfl⟩ := Nat.exists_eq_succ_of_ne_zero (show count ≠ 0 by omega)
    rw [resolveHandlesFrom, if_pos (by simpa using hfail)]
    simp
  | succ j ih =>
    intro count start hk hbefore hfail
    obtain ⟨c, rfl⟩ := Nat.exists_eq_succ_of_ne_zero (show count ≠ 0 by omega)
    have h0 : env.getBufHandleFromFd (fd start) ≠ 0 := by
      have := hbefore 0 (Nat.succ_pos j)
      simpa using this
    have hrec := ih c (start + 1) (Nat.lt_of_succ_lt_succ hk)
      (fun i hi => by
        have := hbefore (i + 1) (Nat.succ_lt_succ hi)
        simpa [Nat.add_assoc, Nat.add_comm 1 i] using this)
      (by
        have : start + 1 + j = start + (j + 1) := by omega
        rw [this]
        exact hfail)
    rw [resolveHandlesFrom, if_neg h0, hrec, range_succ_handle_shift]

theorem bucketsOf_markInuse (s : FBMState) (l : LayerPtr) (b isSec : Bool) :
    bucketsOf (markInuseLayerLocked s l b) isSec = bucketsOf s isSec := by
  obtain ⟨h1, h2, _⟩ := markInuse_fields s l b
  unfold bucketsOf
  rw [h1, h2]

theorem findCachedFbId_eq (s : FBMState) (l : LayerPtr) (b : Bool)
    (f : Framebuffer → Bool) :
    findCachedFbId s l b f =
      (markInuseLayerLocked s l b,
       ((((lookupBucket (bucketsOf s b) l).find? f).map Framebuffer.fbId)).getD 0) := by
  simp only [findCachedFbId, bucketsOf_markInuse]

theorem resolvedHandles_length (env : DrmEnv) (cfg : WinConfig) (n : Nat) :
    (resolvedHandles env cfg n).length = n := by
  simp [resolvedHandles]

theorem resolvedHandles_nonzero (env : DrmEnv) (cfg : WinConfig) (n : Nat)
    (h : ∀ i, i < n → env.getBufHandleFromFd (cfg.fd_idma i) ≠ 0) :
    ∀ x ∈ resolvedHandles env cfg n, x ≠ 0 := by
  intro x hx
  obtain ⟨i, hi, rfl⟩ := List.mem_map.mp hx
  exact h i (List.mem_range.mp hi)

theorem getBufferFinish_ok (env : DrmEnv) (s : FBMState) (cfg : WinConfig)
    (isSec : Bool) (bw bh df bn : Nat) (handles pitches offsets mods : Nat → Nat)
    (opened : List Nat) (fb : Nat)
    (hstate : cfg.state = WinState.buffer)
    (hadd : ∀ req, env.drmModeAddFB2WithModifiers req = (0, fb)) :
    getBufferFinish env s cfg isSec bw bh df bn handles pitches offsets mods opened =
      { ret := 0, fbId := fb,
        state := cacheSuccessfulFb env s cfg isSec bw bh df fb,
        addFBCalls := 1, openedHandles := opened,
        freedHandles := ((List.range bn).map handles).filter (fun h => h ≠ 0) } := by
  simp [getBufferFinish, addFB2WithModifiers, hstate, validateLayerInfo, hadd]

theorem getBufferFinish_addfb_fail (env : DrmEnv) (s : FBMState) (cfg : WinConfig)
    (isSec : Bool) (bw bh df bn : Nat) (handles pitches offsets mods : Nat → Nat)
    (opened : List Nat) (e : Int) (junk : Nat)
    (hstate : cfg.state = WinState.buffer)
    (hadd : ∀ req, env.drmModeAddFB2WithModifiers req = (e, junk))
    (he : e ≠ 0) :
    getBufferFinish env s cfg isSec bw bh df bn handles pitches offsets mods opened =
      { ret := e, fbId := 0, state := s, addFBCalls := 1, openedHandles := opened,
        freedHandles := ((List.range bn).map handles).filter (fun h => h ≠ 0) } := by
  simp [getBufferFinish, addFB2WithModifiers, hstate, validateLayerInfo, hadd, he]

theorem cacheSuccessfulFb_tracked (env : DrmEnv) (s : FBMState) (cfg : WinConfig)
    (isSec : Bool) (bw bh df fbid : Nat)
    (htr : cfg.layer.isSome = true ∨ cfg.buffer_id ≠ 0) :
    lookupBucket (bucketsOf (cacheSuccessfulFb env s cfg isSec bw bh df fbid) isSec)
        cfg.layer =
      ({ fbId := fbid, desc := descOf cfg bw bh df } : Framebuffer) ::
        (if (lookupBucket (bucketsOf s isSec) cfg.layer).length > capOf env isSec then []
         else lookupBucket (bucketsOf s isSec) cfg.layer) ∧
    (cacheSuccessfulFb env s cfg isSec bw bh df fbid).cleanBuffers =
      (if (lookupBucket (bucketsOf s isSec) cfg.layer).length > capOf env isSec then
        s.cleanBuffers ++ lookupBucket (bucketsOf s isSec) cfg.layer
       else s.cleanBuffers) := by
  obtain ⟨h1, h2, h3⟩ := markInuse_fields s cfg.layer isSec
  cases isSec <;>
    exact ⟨by simp [cacheSuccessfulFb, htr, h1, h2, h3, bucketsOf, capOf,
        lookupBucket_setBucket],
      by simp [cacheSuccessfulFb, htr, h1, h2, h3, bucketsOf, capOf,
        lookupBucket_setBucket]⟩

theorem cacheSuccessfulFb_untracked (env : DrmEnv) (s : FBMState) (cfg : WinConfig)
    (isSec : Bool) (bw bh df fbid : Nat)
    (h1 : cfg.layer = none) (h2 : cfg.buffer_id = 0) :
    cacheSuccessfulFb env s cfg isSec bw bh df fbid = s := by
  simp [cacheSuccessfulFb, h1, h2]

theorem resolveHandles_error (env : DrmEnv) (cfg : WinConfig) (k n : Nat)
    (hk : k < n)
    (hbefore : ∀ i, i < k → env.getBufHandleFromFd (cfg.fd_idma i) ≠ 0)
    (hfail : env.getBufHandleFromFd (cfg.fd_idma k) = 0) :
    resolveHandles env cfg.fd_idma n = .error (resolvedHandles env cfg k) := by
  unfold resolveHandles resolvedHandles
  rw [resolveHandlesFrom_error env cfg.fd_idma k n 0 hk
    (fun i hi => by simpa using hbefore i hi) (by simpa using hfail)]
  congr 1
  exact List.map_congr_left (fun i _ => by simp)

/-- The successful cache-miss path of `getBuffer` for a `WIN_STATE_BUFFER`
config: format resolvable, no cached match, all dma-buf fds resolve, and
the kernel creation call succeeds with id `fb`. -/
theorem getBuffer_miss_creates (env : DrmEnv) (s : FBMState) (cfg : WinConfig)
    (ef : ExynosFormatInfo) (fb : Nat)
    (hstate : cfg.state = WinState.buffer)
    (hfmt : env.halFormatToExynosFormat cfg.format cfg.compressionType = some ef)
    (hdf : ef.drmFormat ≠ 0)
    (hbn : ef.bufferNum ≠ 0)
    (hpn : ¬(ef.planeNum = 0 ∨ ef.planeNum > MAX_PLANE_NUM))
    (hmiss : (lookupBucket (bucketsOf s cfg.protection) cfg.layer).find?
        (fun x => x.desc ==
          FbDesc.buffer ⟨cfg.buffer_id, ef.drmFormat, cfg.protection⟩) = none)
    (hres : ∀ i, i < ef.bufferNum → env.getBufHandleFromFd (cfg.fd_idma i) ≠ 0)
    (hadd : ∀ req, env.drmModeAddFB2WithModifiers req = (0, fb)) :
    getBuffer env s cfg =
      { ret := 0, fbId := fb,
        state := cacheSuccessfulFb env (markInuseLayerLocked s cfg.layer cfg.protection)
          cfg cfg.protection cfg.src_f_w cfg.src_f_h ef.drmFormat fb,
        addFBCalls := 1,
        openedHandles := resolvedHandles env cfg ef.bufferNum,
        freedHandles := resolvedHandles env cfg ef.bufferNum } := by
  have hdf0 : ¬(ef.drmFormat = DRM_FORMAT_UNDEFINED) := by
    simpa [DRM_FORMAT_UNDEFINED] using hdf
  have hg : getBuffer env s cfg = getBufferBufferOrRcd env s cfg
      (if cfg.protection = true then env.MOD_PROTECTION else 0) := by
    simp only [getBuffer, hstate]
  have hlen := resolvedHandles_length env cfg ef.bufferNum
  have hnz := resolvedHandles_nonzero env cfg ef.bufferNum hres
  rw [hg]
  simp only [getBufferBufferOrRcd, hfmt, if_neg hdf0, if_neg hbn, if_neg hpn,
    findCachedFbId_eq, hmiss, Option.map_none', Option.getD_none,
    if_neg (show ¬((0 : Nat) ≠ 0) by simp),
    resolveHandles_ok env cfg ef.bufferNum hres]
  by_cases hcb : ef.bufferNum = 1 ∧ ef.planeNum > ef.bufferNum
  · rw [if_pos hcb,
      getBufferFinish_ok env _ cfg cfg.protection cfg.src_f_w cfg.src_f_h ef.drmFormat
        ef.bufferNum _ _ _ _ _ fb hstate hadd]
    congr 1
    refine filter_map_range_eq ef.bufferNum _ (resolvedHandles env cfg ef.bufferNum)
      hlen (fun i hi => ?_) hnz
    have hi1 : i = 0 := by omega
    subst hi1
    simp [setRangeFrom, setRange, hcb.1]
  · rw [if_neg hcb,
      getBufferFinish_ok env _ cfg cfg.protection cfg.src_f_w cfg.src_f_h ef.drmFormat
        ef.bufferNum _ _ _ _ _ fb hstate hadd]
    congr 1
    refine filter_map_range_eq ef.bufferNum _ (resolvedHandles env cfg ef.bufferNum)
      hlen (fun i hi => ?_) hnz
    simp [setRange, hi]

/-- The cache-hit path of `getBuffer` for a `WIN_STATE_BUFFER` config: the
owner's bucket already holds a structurally matching entry, so the cached
id is returned with no handle resolution and no creation call. -/
theorem getBuffer_hit (env : DrmEnv) (s : FBMState) (cfg : WinConfig)
    (ef : ExynosFormatInfo) (entry : Framebuffer)
    (hstate : cfg.state = WinState.buffer)
    (hfmt : env.halFormatToExynosFormat cfg.format cfg.compressionType = some ef)
    (hdf : ef.drmFormat ≠ 0)
    (hbn : ef.bufferNum ≠ 0)
    (hpn : ¬(ef.planeNum = 0 ∨ ef.planeNum > MAX_PLANE_NUM))
    (hfind : (lookupBucket (bucketsOf s cfg.protection) cfg.layer).find?
        (fun x => x.desc ==
          FbDesc.buffer ⟨cfg.buffer_id, ef.drmFormat, cfg.protection⟩) = some entry)
    (hid : entry.fbId ≠ 0) :
    getBuffer env s cfg =
      { ret := NO_ERROR, fbId := entry.fbId,
        state := markInuseLayerLocked s cfg.layer cfg.protection,
        addFBCalls := 0, openedHandles := [], freedHandles := [] } := by
  have hdf0 : ¬(ef.drmFormat = DRM_FORMAT_UNDEFINED) := by
    simpa [DRM_FORMAT_UNDEFINED] using hdf
  have hg : getBuffer env s cfg = getBufferBufferOrRcd env s cfg
      (if cfg.protection = true then env.MOD_PROTECTION else 0) := by
    simp only [getBuffer, hstate]
  rw [hg]
  simp only [getBufferBufferOrRcd, hfmt, if_neg hdf0, if_neg hbn, if_neg hpn,
    findCachedFbId_eq, hfind, Option.map_some', Option.getD_some, if_pos hid]

/-- The handle-resolution failure path of `getBuffer`: fd index `k` (the
first failing one) resolves to handle `0`, so the call returns `-ENOMEM`;
the handles opened for indices `< k` are reported opened but none is
freed. -/
theorem getBuffer_resolve_fail (env : DrmEnv) (s : FBMState) (cfg : WinConfig)
    (ef : ExynosFormatInfo) (k : Nat)
    (hstate : cfg.state = WinState.buffer)
    (hfmt : env.halFormatToExynosFormat cfg.format cfg.compressionType = some ef)
    (hdf : ef.drmFormat ≠ 0)
    (hbn : ef.bufferNum ≠ 0)
    (hpn : ¬(ef.planeNum = 0 ∨ ef.planeNum > MAX_PLANE_NUM))
    (hmiss : (lookupBucket (bucketsOf s cfg.protection) cfg.layer).find?
        (fun x => x.desc ==
          FbDesc.buffer ⟨cfg.buffer_id, ef.drmFormat, cfg.protection⟩) = none)
    (hk : k < ef.bufferNum)
    (hbefore : ∀ i, i < k → env.getBufHandleFromFd (cfg.fd_idma i) ≠ 0)
    (hfail : env.getBufHandleFromFd (cfg.fd_idma k) = 0) :
    getBuffer env s cfg =
      { ret := -ENOMEM, fbId := 0,
        state := markInuseLayerLocked s cfg.layer cfg.protection,
        addFBCalls := 0,
        openedHandles := resolvedHandles env cfg k,
        freedHandles := [] } := by
  have hdf0 : ¬(ef.drmFormat = DRM_FORMAT_UNDEFINED) := by
    simpa [DRM_FORMAT_UNDEFINED] using hdf
  have hg : getBuffer env s cfg = getBufferBufferOrRcd env s cfg
      (if cfg.protection = true then env.MOD_PROTECTION else 0) := by
    simp only [getBuffer, hstate]
  rw [hg]
  simp only [getBufferBufferOrRcd, hfmt, if_neg hdf0, if_neg hbn, if_neg hpn,
    findCachedFbId_eq, hmiss, Option.map_none', Option.getD_none,
    if_neg (show ¬((0 : Nat) ≠ 0) by simp),
    resolveHandles_error env cfg k ef.bufferNum hk hbefore hfail]

/-- The kernel-creation failure path of `getBuffer`: every fd resolves but
`addFB2WithModifiers` fails with `e`, which is returned; the opened handles
are all freed before returning. -/
theorem getBuffer_addfb_fail (env : DrmEnv) (s : FBMState) (cfg : WinConfig)
    (ef : ExynosFormatInfo) (e : Int) (junk : Nat)
    (hstate : cfg.state = WinState.buffer)
    (hfmt : env.halFormatToExynosFormat cfg.format cfg.compressionType = some ef)
    (hdf : ef.drmFormat ≠ 0)
    (hbn : ef.bufferNum ≠ 0)
    (hpn : ¬(ef.planeNum = 0 ∨ ef.planeNum > MAX_PLANE_NUM))
    (hmiss : (lookupBucket (bucketsOf s cfg.protection) cfg.layer).find?
        (fun x => x.desc ==
          FbDesc.buffer ⟨cfg.buffer_id, ef.drmFormat, cfg.protection⟩) = none)
    (hres : ∀ i, i < ef.bufferNum → env.getBufHandleFromFd (cfg.fd_idma i) ≠ 0)
    (hadd : ∀ req, env.drmModeAddFB2WithModifiers req = (e, junk))
    (he : e ≠ 0) :
    getBuffer env s cfg =
      { ret := e, fbId := 0,
        state := markInuseLayerLocked s cfg.layer cfg.protection,
        addFBCalls := 1,
        openedHandles := resolvedHandles env cfg ef.bufferNum,
        freedHandles := resolvedHandles env cfg ef.bufferNum } := by
  have hdf0 : ¬(ef.drmFormat = DRM_FORMAT_UNDEFINED) := by
    simpa [DRM_FORMAT_UNDEFINED] using hdf
  have hg : getBuffer env s cfg = getBufferBufferOrRcd env s cfg
      (if cfg.protection = true then env.MOD_PROTECTION else 0) := by
    simp only [getBuffer, hstate]
  have hlen := resolvedHandles_length env cfg ef.bufferNum
  have hnz := resolvedHandles_nonzero env cfg ef.bufferNum hres
  rw [hg]
  simp only [getBufferBufferOrRcd, hfmt, if_neg hdf0, if_neg hbn, if_neg hpn,
    findCachedFbId_eq, hmiss, Option.map_none', Option.getD_none,
    if_neg (show ¬((0 : Nat) ≠ 0) by simp),
    resolveHandles_ok env cfg ef.bufferNum hres]
  by_cases hcb : ef.bufferNum = 1 ∧ ef.planeNum > ef.bufferNum
  · rw [if_pos hcb,
      getBufferFinish_addfb_fail env _ cfg cfg.protection cfg.src_f_w cfg.src_f_h
        ef.drmFormat ef.bufferNum _ _ _ _ _ e junk hstate hadd he]
    congr 1
    refine filter_map_range_eq ef.bufferNum _ (resolvedHandles env cfg ef.bufferNum)
      hlen (fun i hi => ?_) hnz
    have hi1 : i = 0 := by omega
    subst hi1
    simp [setRangeFrom, setRange, hcb.1]
  · rw [if_neg hcb,
      getBufferFinish_addfb_fail env _ cfg cfg.protection cfg.src_f_w cfg.src_f_h
        ef.drmFormat ef.bufferNum _ _ _ _ _ e junk hstate hadd he]
    congr 1
    refine filter_map_range_eq ef.bufferNum _ (resolvedHandles env cfg ef.bufferNum)
      hlen (fun i hi => ?_) hnz
    simp [setRange, hi]

/-! ## Claim C1: cache idempotence of `getBuffer` -/

/-- Claim C1: starting from a state with no cached match, a `getBuffer` call
that successfully creates a framebuffer (id `fb`) invokes
`addFB2WithModifiers` exactly once, and a second call with the same
`(layer, bufferId, drmFormat, protection)` identity (the other fields may
differ as long as the format still resolves) returns the same cached `fb`
with zero further creation calls. -/
theorem getBuffer_cache_idempotent (env : DrmEnv) (s : FBMState)
    (cfg cfg2 : WinConfig) (ef ef2 : ExynosFormatInfo) (fb : Nat)
    (hstate : cfg.state = WinState.buffer)
    (hfmt : env.halFormatToExynosFormat cfg.format cfg.compressionType = some ef)
    (hdf : ef.drmFormat ≠ 0)
    (hbn : ef.bufferNum ≠ 0)
    (hpn : ¬(ef.planeNum = 0 ∨ ef.planeNum > MAX_PLANE_NUM))
    (hmiss : (lookupBucket (bucketsOf s cfg.protection) cfg.layer).find?
        (fun x => x.desc ==
          FbDesc.buffer ⟨cfg.buffer_id, ef.drmFormat, cfg.protection⟩) = none)
    (hres : ∀ i, i < ef.bufferNum → env.getBufHandleFromFd (cfg.fd_idma i) ≠ 0)
    (hadd : ∀ req, env.drmModeAddFB2WithModifiers req = (0, fb))
    (hfb : fb ≠ 0)
    (htr : cfg.layer.isSome = true ∨ cfg.buffer_id ≠ 0)
    (hstate2 : cfg2.state = WinState.buffer)
    (hfmt2 : env.halFormatToExynosFormat cfg2.format cfg2.compressionType = some ef2)
    (hdf2 : ef2.drmFormat ≠ 0)
    (hbn2 : ef2.bufferNum ≠ 0)
    (hpn2 : ¬(ef2.planeNum = 0 ∨ ef2.planeNum > MAX_PLANE_NUM))
    (hlayer : cfg2.layer = cfg.layer)
    (hbid : cfg2.buffer_id = cfg.buffer_id)
    (hprot : cfg2.protection = cfg.protection)
    (hdfeq : ef2.drmFormat = ef.drmFormat) :
    (getBuffer env s cfg).ret = NO_ERROR ∧
    (getBuffer env s cfg).fbId = fb ∧
    (getBuffer env s cfg).addFBCalls = 1 ∧
    (getBuffer env (getBuffer env s cfg).state cfg2).ret = NO_ERROR ∧
    (getBuffer env (getBuffer env s cfg).state cfg2).fbId = fb ∧
    (getBuffer env (getBuffer env s cfg).state cfg2).addFBCalls = 0 := by
  have h1 := getBuffer_miss_creates env s cfg ef fb hstate hfmt hdf hbn hpn hmiss hres hadd
  have hentry := (cacheSuccessfulFb_tracked env
    (markInuseLayerLocked s cfg.layer cfg.protection) cfg cfg.protection
    cfg.src_f_w cfg.src_f_h ef.drmFormat fb htr).1
  have hdesc : descOf cfg cfg.src_f_w cfg.src_f_h ef.drmFormat =
      FbDesc.buffer ⟨cfg.buffer_id, ef.drmFormat, cfg.protection⟩ := by
    simp [descOf, hstate]
  have hfind2 : (lookupBucket (bucketsOf (getBuffer env s cfg).state cfg2.protection)
      cfg2.layer).find?
      (fun x => x.desc ==
        FbDesc.buffer ⟨cfg2.buffer_id, ef2.drmFormat, cfg2.protection⟩) =
      some { fbId := fb, desc := descOf cfg cfg.src_f_w cfg.src_f_h ef.drmFormat } := by
    rw [h1, hlayer, hbid, hprot, hdfeq]
    rw [hentry]
    exact List.find?_cons_of_pos _ (by simp [hdesc])
  have h2 := getBuffer_hit env (getBuffer env s cfg).state cfg2 ef2
    { fbId := fb, desc := descOf cfg cfg.src_f_w cfg.src_f_h ef.drmFormat }
    hstate2 hfmt2 hdf2 hbn2 hpn2 hfind2 (by simpa using hfb)
  refine ⟨?_, ?_, ?_, ?_, ?_, ?_⟩
  · rw [h1]; rfl
  · rw [h1]
  · rw [h1]
  · rw [h2]
  · rw [h2]
  · rw [h2]

/-- The empty framebuffer-manager state (as right after `init`). -/
def emptyFBM : FBMState :=
  { cachedLayerBuffers := []
    cachedSecureLayerBuffers := []
    cleanBuffers := []
    cacheShrinkPending := false
    cacheSecureShrinkPending := false
    cachedLayersInuse := []
    cachedSecureLayersInuse := [] }

def c1Env : DrmEnv :=
  { halFormatToExynosFormat := fun _ _ =>
      some { drmFormat := 7, bufferNum := 1, planeNum := 1 }
    getBytePerPixelOfPrimaryPlane := fun _ => 4
    getExynosBufferYLength := fun _ _ _ => 0
    getBufHandleFromFd := fun _ => 9
    drmModeAddFB2WithModifiers := fun _ => (0, 101)
    MOD_PROTECTION := 1
    AFBC_SOURCE_G2D := 2
    AFBC_SOURCE_GPU := 3
    modArmAfbc := fun m => m
    modSamsungSbwc := fun m => m
    MOD_SAMSUNG_COLORMAP := 4
    MAX_CACHED_BUFFERS_PER_LAYER := 32
    MAX_CACHED_SECURE_BUFFERS_PER_LAYER := 3 }

def c1Cfg : WinConfig :=
  { state := .buffer
    protection := false
    format := 1
    compressionType := .uncompressed
    compressionModifier := 0
    comp_src := .other
    src_f_w := 100
    src_f_h := 50
    dst_w := 100
    dst_h := 50
    layer := some 1
    buffer_id := 7
    fd_idma := fun _ => 3 }

/-- Witness for C1: layer 1 requests buffer 7 twice from an empty cache;
the first call creates fbId 101 with one `addFB2WithModifiers` call, the
second returns 101 from the cache with zero creation calls. -/
theorem getBuffer_cache_idempotent_witness :
    (getBuffer c1Env emptyFBM c1Cfg).ret = NO_ERROR ∧
    (getBuffer c1Env emptyFBM c1Cfg).fbId = 101 ∧
    (getBuffer c1Env emptyFBM c1Cfg).addFBCalls = 1 ∧
    (getBuffer c1Env (getBuffer c1Env emptyFBM c1Cfg).state c1Cfg).ret = NO_ERROR ∧
    (getBuffer c1Env (getBuffer c1Env emptyFBM c1Cfg).state c1Cfg).fbId = 101 ∧
    (getBuffer c1Env (getBuffer c1Env emptyFBM c1Cfg).state c1Cfg).addFBCalls = 0 :=
  getBuffer_cache_idempotent c1Env emptyFBM c1Cfg c1Cfg
    { drmFormat := 7, bufferNum := 1, planeNum := 1 }
    { drmFormat := 7, bufferNum := 1, planeNum := 1 } 101
    rfl rfl (by decide) (by decide) (by decide) (by decide) (by decide)
    (fun _ => rfl) (by decide) (by decide)
    rfl rfl (by decide) (by decide) (by decide) rfl rfl rfl rfl

/-! ## Claim C3: coarse cap eviction on insert -/

def c3Env : DrmEnv :=
  { c1Env with MAX_CACHED_BUFFERS_PER_LAYER := 1 }

def c3State : FBMState :=
  { emptyFBM with
    cachedLayerBuffers := [(some 1, [{ fbId := 77, desc := .buffer ⟨9, 7, false⟩ }])] }

def c3Cfg : WinConfig :=
  { c1Cfg with buffer_id := 5 }

/-- Counterexample to claim C3 as stated: with the per-owner cap at 1 and
the owner's bucket holding exactly 1 (non-matching) entry, a cache-miss
insert pushes the bucket over its cap (to 2 entries), yet nothing is moved
to the reclaim list — the whole prior bucket is retained behind the new
front entry.  The code only evicts when the bucket is already over the cap
before the insertion. -/
theorem getBuffer_cap_eviction_counterexample :
    (lookupBucket c3State.cachedLayerBuffers (some 1)).length =
      c3Env.MAX_CACHED_BUFFERS_PER_LAYER ∧
    (getBuffer c3Env c3State c3Cfg).ret = 0 ∧
    (getBuffer c3Env c3State c3Cfg).state.cleanBuffers = [] ∧
    lookupBucket (getBuffer c3Env c3State c3Cfg).state.cachedLayerBuffers (some 1) =
      [{ fbId := 101, desc := .buffer ⟨5, 7, false⟩ },
       { fbId := 77, desc := .buffer ⟨9, 7, false⟩ }] ∧
    (lookupBucket (getBuffer c3Env c3State c3Cfg).state.cachedLayerBuffers (some 1)).length >
      c3Env.MAX_CACHED_BUFFERS_PER_LAYER := by
  decide

/-- Claim C3 (amended): on a successful cache-miss insert, the entire prior
bucket is spliced to the reclaim list exactly when the bucket's size
*before* the insertion already exceeds the per-owner cap (i.e. on the
insertion after the one that pushed it over the cap); the new entry is
then inserted at the front of the emptied bucket.  When the prior size is
at or below the cap — including when this very insertion pushes it over —
no eviction occurs and the entry is simply inserted at the front. -/
theorem getBuffer_cap_eviction_amended (env : DrmEnv) (s : FBMState)
    (cfg : WinConfig) (ef : ExynosFormatInfo) (fb : Nat)
    (hstate : cfg.state = WinState.buffer)
    (hfmt : env.halFormatToExynosFormat cfg.format cfg.compressionType = some ef)
    (hdf : ef.drmFormat ≠ 0)
    (hbn : ef.bufferNum ≠ 0)
    (hpn : ¬(ef.planeNum = 0 ∨ ef.planeNum > MAX_PLANE_NUM))
    (hmiss : (lookupBucket (bucketsOf s cfg.protection) cfg.layer).find?
        (fun x => x.desc ==
          FbDesc.buffer ⟨cfg.buffer_id, ef.drmFormat, cfg.protection⟩) = none)
    (hres : ∀ i, i < ef.bufferNum → env.getBufHandleFromFd (cfg.fd_idma i) ≠ 0)
    (hadd : ∀ req, env.drmModeAddFB2WithModifiers req = (0, fb))
    (htr : cfg.layer.isSome = true ∨ cfg.buffer_id ≠ 0) :
    lookupBucket (bucketsOf (getBuffer env s cfg).state cfg.protection) cfg.layer =
      ({ fbId := fb, desc := FbDesc.buffer ⟨cfg.buffer_id, ef.drmFormat, cfg.protection⟩ } :
          Framebuffer) ::
        (if (lookupBucket (bucketsOf s cfg.protection) cfg.layer).length >
            capOf env cfg.protection then []
         else lookupBucket (bucketsOf s cfg.protection) cfg.layer) ∧
    (getBuffer env s cfg).state.cleanBuffers =
      (if (lookupBucket (bucketsOf s cfg.protection) cfg.layer).length >
          capOf env cfg.protection then
        s.cleanBuffers ++ lookupBucket (bucketsOf s cfg.protection) cfg.layer
       else s.cleanBuffers) := by
  have h1 := getBuffer_miss_creates env s cfg ef fb hstate hfmt hdf hbn hpn hmiss hres hadd
  obtain ⟨hb1, hb2⟩ := cacheSuccessfulFb_tracked env
    (markInuseLayerLocked s cfg.layer cfg.protection) cfg cfg.protection
    cfg.src_f_w cfg.src_f_h ef.drmFormat fb htr
  have hbm := bucketsOf_markInuse s cfg.layer cfg.protection cfg.protection
  have hcl := (markInuse_fields s cfg.layer cfg.protection).2.2
  rw [hbm] at hb1 hb2
  rw [hcl] at hb2
  have hdesc : descOf cfg cfg.src_f_w cfg.src_f_h ef.drmFormat =
      FbDesc.buffer ⟨cfg.buffer_id, ef.drmFormat, cfg.protection⟩ := by
    simp [descOf, hstate]
  rw [hdesc] at hb1
  rw [h1]
  exact ⟨hb1, hb2⟩

def c3aState : FBMState :=
  { emptyFBM with
    cachedLayerBuffers :=
      [(some 1,
        [{ fbId := 77, desc := .buffer ⟨9, 7, false⟩ },
         { fbId := 78, desc := .buffer ⟨10, 7, false⟩ }])] }

/-- Witness for the amended C3: with a cap of 1 and a bucket of 2 entries
(already over the cap), the insertion splices both prior entries to the
reclaim list and leaves the bucket holding only the new entry. -/
theorem getBuffer_cap_eviction_amended_witness :
    lookupBucket (bucketsOf (getBuffer c3Env c3aState c3Cfg).state c3Cfg.protection)
        c3Cfg.layer =
      [({ fbId := 101, desc := FbDesc.buffer ⟨5, 7, false⟩ } : Framebuffer)] ∧
    (getBuffer c3Env c3aState c3Cfg).state.cleanBuffers =
      [{ fbId := 77, desc := .buffer ⟨9, 7, false⟩ },
       { fbId := 78, desc := .buffer ⟨10, 7, false⟩ }] := by
  have h := getBuffer_cap_eviction_amended c3Env c3aState c3Cfg
    { drmFormat := 7, bufferNum := 1, planeNum := 1 } 101
    rfl rfl (by decide) (by decide) (by decide) (by decide) (by decide)
    (fun _ => rfl) (by decide)
  refine ⟨?_, ?_⟩
  · rw [h.1]
    decide
  · rw [h.2]
    decide

/-! ## Claim C7: creation-failure atomicity -/

def c7Env : DrmEnv :=
  { c1Env with
    halFormatToExynosFormat := fun _ _ =>
      some { drmFormat := 7, bufferNum := 2, planeNum := 2 }
    getBufHandleFromFd := fun fd => if fd = 0 then 5 else 0 }

def c7Cfg : WinConfig :=
  { c1Cfg with fd_idma := fun i => Int.ofNat i }

/-- Counterexample to claim C7 as stated: a two-plane buffer whose first fd
resolves to GEM handle 5 and whose second fd fails to resolve.  `getBuffer`
returns `-ENOMEM`, but the handle 5 opened during the failed attempt is not
closed before returning (`freeBufHandle` is never reached on this path),
contradicting "every GEM buffer handle opened during the failed attempt is
closed synchronously within the call". -/
theorem getBuffer_failure_cleanup_counterexample :
    (getBuffer c7Env emptyFBM c7Cfg).ret = -ENOMEM ∧
    (getBuffer c7Env emptyFBM c7Cfg).openedHandles = [5] ∧
    (getBuffer c7Env emptyFBM c7Cfg).freedHandles = [] := by
  decide

/-- Claim C7 (amended), for the `WIN_STATE_BUFFER` path of `getBuffer`:
(a) when the kernel creation call (`addFB2WithModifiers`) fails, its error
is returned, no cache bucket and no reclaim-list entry is mutated, and
every GEM handle opened during the attempt is freed synchronously before
returning; (b) when an input buffer handle cannot be resolved (index `k`
is the first to fail), `-ENOMEM` is returned and no cache state is
mutated, but the handles opened for the indices before `k` remain open —
nothing is freed within the call. -/
theorem getBuffer_creation_failure_amended :
    (∀ (env : DrmEnv) (s : FBMState) (cfg : WinConfig) (ef : ExynosFormatInfo)
        (e : Int) (junk : Nat),
      cfg.state = WinState.buffer →
      env.halFormatToExynosFormat cfg.format cfg.compressionType = some ef →
      ef.drmFormat ≠ 0 →
      ef.bufferNum ≠ 0 →
      ¬(ef.planeNum = 0 ∨ ef.planeNum > MAX_PLANE_NUM) →
      (lookupBucket (bucketsOf s cfg.protection) cfg.layer).find?
        (fun x => x.desc ==
          FbDesc.buffer ⟨cfg.buffer_id, ef.drmFormat, cfg.protection⟩) = none →
      (∀ i, i < ef.bufferNum → env.getBufHandleFromFd (cfg.fd_idma i) ≠ 0) →
      (∀ req, env.drmModeAddFB2WithModifiers req = (e, junk)) →
      e ≠ 0 →
      (getBuffer env s cfg).ret = e ∧
      (getBuffer env s cfg).state.cachedLayerBuffers = s.cachedLayerBuffers ∧
      (getBuffer env s cfg).state.cachedSecureLayerBuffers = s.cachedSecureLayerBuffers ∧
      (getBuffer env s cfg).state.cleanBuffers = s.cleanBuffers ∧
      (getBuffer env s cfg).freedHandles = (getBuffer env s cfg).openedHandles) ∧
    (∀ (env : DrmEnv) (s : FBMState) (cfg : WinConfig) (ef : ExynosFormatInfo)
        (k : Nat),
      cfg.state = WinState.buffer →
      env.halFormatToExynosFormat cfg.format cfg.compressionType = some ef →
      ef.drmFormat ≠ 0 →
      ef.bufferNum ≠ 0 →
      ¬(ef.planeNum = 0 ∨ ef.planeNum > MAX_PLANE_NUM) →
      (lookupBucket (bucketsOf s cfg.protection) cfg.layer).find?
        (fun x => x.desc ==
          FbDesc.buffer ⟨cfg.buffer_id, ef.drmFormat, cfg.protection⟩) = none →
      k < ef.bufferNum →
      (∀ i, i < k → env.getBufHandleFromFd (cfg.fd_idma i) ≠ 0) →
      env.getBufHandleFromFd (cfg.fd_idma k) = 0 →
      (getBuffer env s cfg).ret = -ENOMEM ∧
      (getBuffer env s cfg).state.cachedLayerBuffers = s.cachedLayerBuffers ∧
      (getBuffer env s cfg).state.cachedSecureLayerBuffers = s.cachedSecureLayerBuffers ∧
      (getBuffer env s cfg).state.cleanBuffers = s.cleanBuffers ∧
      (getBuffer env s cfg).openedHandles = resolvedHandles env cfg k ∧
      (getBuffer env s cfg).freedHandles = []) := by
  constructor
  · intro env s cfg ef e junk hstate hfmt hdf hbn hpn hmiss hres hadd he
    have h := getBuffer_addfb_fail env s cfg ef e junk hstate hfmt hdf hbn hpn
      hmiss hres hadd he
    obtain ⟨m1, m2, m3⟩ := markInuse_fields s cfg.layer cfg.protection
    rw [h]
    exact ⟨rfl, m1, m2, m3, rfl⟩
  · intro env s cfg ef k hstate hfmt hdf hbn hpn hmiss hk hbefore hfail
    have h := getBuffer_resolve_fail env s cfg ef k hstate hfmt hdf hbn hpn
      hmiss hk hbefore hfail
    obtain ⟨m1, m2, m3⟩ := markInuse_fields s cfg.layer cfg.protection
    rw [h]
    exact ⟨rfl, m1, m2, m3, rfl, rfl⟩

def c7aEnv : DrmEnv :=
  { c1Env with drmModeAddFB2WithModifiers := fun _ => (-EINVAL, 0) }

/-- Witness for the amended C7: a failing kernel creation call returns
`-EINVAL` with every opened handle freed, and a failing handle resolution
returns `-ENOMEM` with nothing freed. -/
theorem getBuffer_creation_failure_amended_witness :
    ((getBuffer c7aEnv emptyFBM c1Cfg).ret = -EINVAL ∧
     (getBuffer c7aEnv emptyFBM c1Cfg).freedHandles =
       (getBuffer c7aEnv emptyFBM c1Cfg).openedHandles) ∧
    ((getBuffer c7Env emptyFBM c7Cfg).ret = -ENOMEM ∧
     (getBuffer c7Env emptyFBM c7Cfg).freedHandles = []) := by
  have ha := getBuffer_creation_failure_amended.1 c7aEnv emptyFBM c1Cfg
    { drmFormat := 7, bufferNum := 1, planeNum := 1 } (-EINVAL) 0
    rfl rfl (by decide) (by decide) (by decide) (by decide) (by decide)
    (fun _ => rfl) (by decide)
  have hb := getBuffer_creation_failure_amended.2 c7Env emptyFBM c7Cfg
    { drmFormat := 7, bufferNum := 2, planeNum := 2 } 1
    rfl rfl (by decide) (by decide) (by decide) (by decide) (by decide)
    (by decide) (by decide)
  exact ⟨⟨ha.1, ha.2.2.2.2⟩, ⟨hb.1, hb.2.2.2.2.2⟩⟩

/-! ## Claim C10: untracked-buffer leak edge case -/

/-- Claim C10: on the successful creation path of `getBuffer`, when
`config.layer` is null and `config.buffer_id` is 0, the call succeeds and
returns the new framebuffer id but inserts it into no cache bucket and
onto no reclaim list (the manager will never reclaim it); caching of a
created framebuffer occurs exactly when the layer is non-null or the
buffer id is nonzero, in which case the new entry lands at the front of
the owner's bucket. -/
theorem getBuffer_untracked_leak (env : DrmEnv) (s : FBMState) (cfg : WinConfig)
    (ef : ExynosFormatInfo) (fb : Nat)
    (hstate : cfg.state = WinState.buffer)
    (hfmt : env.halFormatToExynosFormat cfg.format cfg.compressionType = some ef)
    (hdf : ef.drmFormat ≠ 0)
    (hbn : ef.bufferNum ≠ 0)
    (hpn : ¬(ef.planeNum = 0 ∨ ef.planeNum > MAX_PLANE_NUM))
    (hmiss : (lookupBucket (bucketsOf s cfg.protection) cfg.layer).find?
        (fun x => x.desc ==
          FbDesc.buffer ⟨cfg.buffer_id, ef.drmFormat, cfg.protection⟩) = none)
    (hres : ∀ i, i < ef.bufferNum → env.getBufHandleFromFd (cfg.fd_idma i) ≠ 0)
    (hadd : ∀ req, env.drmModeAddFB2WithModifiers req = (0, fb)) :
    (cfg.layer = none → cfg.buffer_id = 0 →
      (getBuffer env s cfg).ret = 0 ∧
      (getBuffer env s cfg).fbId = fb ∧
      (getBuffer env s cfg).state.cachedLayerBuffers = s.cachedLayerBuffers ∧
      (getBuffer env s cfg).state.cachedSecureLayerBuffers = s.cachedSecureLayerBuffers ∧
      (getBuffer env s cfg).state.cleanBuffers = s.cleanBuffers) ∧
    (cfg.layer.isSome = true ∨ cfg.buffer_id ≠ 0 →
      lookupBucket (bucketsOf (getBuffer env s cfg).state cfg.protection) cfg.layer =
        ({ fbId := fb,
           desc := FbDesc.buffer ⟨cfg.buffer_id, ef.drmFormat, cfg.protection⟩ } :
            Framebuffer) ::
          (if (lookupBucket (bucketsOf s cfg.protection) cfg.layer).length >
              capOf env cfg.protection then []
           else lookupBucket (bucketsOf s cfg.protection) cfg.layer)) := by
  have h1 := getBuffer_miss_creates env s cfg ef fb hstate hfmt hdf hbn hpn hmiss hres hadd
  constructor
  · intro hnone hzero
    obtain ⟨m1, m2, m3⟩ := markInuse_fields s cfg.layer cfg.protection
    rw [h1, cacheSuccessfulFb_untracked env _ cfg cfg.protection _ _ _ fb hnone hzero]
    exact ⟨rfl, rfl, m1, m2, m3⟩
  · intro htr
    obtain ⟨hb1, _⟩ := cacheSuccessfulFb_tracked env
      (markInuseLayerLocked s cfg.layer cfg.protection) cfg cfg.protection
      cfg.src_f_w cfg.src_f_h ef.drmFormat fb htr
    have hbm := bucketsOf_markInuse s cfg.layer cfg.protection cfg.protection
    rw [hbm] at hb1
    have hdesc : descOf cfg cfg.src_f_w cfg.src_f_h ef.drmFormat =
        FbDesc.buffer ⟨cfg.buffer_id, ef.drmFormat, cfg.protection⟩ := by
      simp [descOf, hstate]
    rw [hdesc] at hb1
    rw [h1]
    exact hb1

def c10Cfg : WinConfig :=
  { c1Cfg with layer := none, buffer_id := 0 }

/-- Witness for C10: an untracked config (null layer, buffer id 0) succeeds
with fbId 101 but leaves every cache structure untouched; the same request
under a tracked config is cached at the front of the owner's bucket. -/
theorem getBuffer_untracked_leak_witness :
    ((getBuffer c1Env emptyFBM c10Cfg).ret = 0 ∧
     (getBuffer c1Env emptyFBM c10Cfg).fbId = 101 ∧
     (getBuffer c1Env emptyFBM c10Cfg).state.cachedLayerBuffers =
       emptyFBM.cachedLayerBuffers ∧
     (getBuffer c1Env emptyFBM c10Cfg).state.cachedSecureLayerBuffers =
       emptyFBM.cachedSecureLayerBuffers ∧
     (getBuffer c1Env emptyFBM c10Cfg).state.cleanBuffers = emptyFBM.cleanBuffers) ∧
    lookupBucket (bucketsOf (getBuffer c1Env emptyFBM c1Cfg).state c1Cfg.protection)
        c1Cfg.layer =
      [({ fbId := 101, desc := FbDesc.buffer ⟨7, 7, false⟩ } : Framebuffer)] := by
  constructor
  · exact (getBuffer_untracked_leak c1Env emptyFBM c10Cfg
      { drmFormat := 7, bufferNum := 1, planeNum := 1 } 101
      rfl rfl (by decide) (by decide) (by decide) (by decide) (by decide)
      (fun _ => rfl)).1 rfl rfl
  · have h := (getBuffer_untracked_leak c1Env emptyFBM c1Cfg
      { drmFormat := 7, bufferNum := 1, planeNum := 1 } 101
      rfl rfl (by decide) (by decide) (by decide) (by decide) (by decide)
      (fun _ => rfl)).2 (by decide)
    rw [h]
    decide

end HwcModel
